import Mathlib

/-!
# 2D SPH fluid particle system (`fluid_particle_system.cpp`)

A shallow embedding of `lve::FluidParticleSystem`.  C++ `float` arithmetic is read over an
arbitrary linearly ordered field `F` (instantiate `F := ℝ` for the real-number reading and
`F := ℚ` to evaluate the definitions).  `std::vector`s are lists, `for` loops over
`0 .. particleCount` are folds over `List.range`, and out-of-range reads return a default.
-/

namespace lve

/-! ## Basic data -/

/-- Two-component vector `glm::vec2`. -/
structure Vec2 (F : Type) where
  x : F
  y : F
deriving DecidableEq

/-- Integer grid coordinate `glm::int2`. -/
structure Int2 where
  x : Int
  y : Int
deriving DecidableEq

/-- One entry of the spatial lookup: a particle index together with its hash key. -/
structure SpatialHashEntry where
  particleIndex : Nat
  spatialHashKey : Nat
deriving DecidableEq

namespace Vec2

variable {F : Type} [LinearOrderedField F]

/-- The vector `glm::vec2(0.f, 0.f)`. -/
def zero : Vec2 F := ⟨0, 0⟩

/-- Component-wise sum. -/
def add (a b : Vec2 F) : Vec2 F := ⟨a.x + b.x, a.y + b.y⟩

/-- Component-wise difference. -/
def sub (a b : Vec2 F) : Vec2 F := ⟨a.x - b.x, a.y - b.y⟩

/-- Vector times scalar, `v * k`. -/
def mulScalar (a : Vec2 F) (k : F) : Vec2 F := ⟨a.x * k, a.y * k⟩

/-- Scalar times vector, `k * v`. -/
def scale (k : F) (a : Vec2 F) : Vec2 F := ⟨k * a.x, k * a.y⟩

/-- Vector divided by scalar, `v / k`. -/
def divScalar (a : Vec2 F) (k : F) : Vec2 F := ⟨a.x / k, a.y / k⟩

/-- Dot product `glm::dot`. -/
def dot (a b : Vec2 F) : F := a.x * b.x + a.y * b.y

end Vec2

/-- Library and header constants that the translation unit uses but does not define:
`M_PI`, `glm::epsilon<float>()`, the header constant `lookAheadTime`, the square root used by
`glm::distance` and `glm::normalize`, the stream of `glm::circularRand(1.f)` draws and the
stream of `rand()` results. -/
structure Env (F : Type) where
  pi : F
  epsilon : F
  lookAheadTime : F
  sqrt : F → F
  circularRand : Nat → Vec2 F
  stdRand : Nat → Nat

/-- The members of `FluidParticleSystem`.  `randCalls` is not a member: it counts the draws
taken so far from the process-wide random stream. -/
structure FluidParticleSystem (F : Type) where
  particleCount : Nat
  smoothRadius : F
  collisionDamping : F
  targetDensity : F
  pressureMultiplier : F
  gravityAccValue : F
  scalingFactorPoly6_2D : F
  scalingFactorSpikyPow3_2D : F
  scalingFactorSpikyPow2_2D : F
  windowWidth : Nat
  windowHeight : Nat
  positionData : List (Vec2 F)
  nextPositionData : List (Vec2 F)
  velocityData : List (Vec2 F)
  densityData : List F
  massData : List F
  spacialLookup : List SpatialHashEntry
  spacialLookupEntry : List Nat
  randCalls : Nat

/-- A `for (int i = 0; i < n; i++)` loop whose body transforms a state. -/
def forLoop {σ : Type} (n : Nat) (body : Nat → σ → σ) (s : σ) : σ :=
  (List.range n).foldl (fun acc i => body i acc) s

section Glm

variable {F : Type} [LinearOrderedField F]

/-- The function `glm::length`: square root of the dot product with itself. -/
def glmLength (env : Env F) (v : Vec2 F) : F := env.sqrt (Vec2.dot v v)

/-- The function `glm::distance(p0, p1) = length(p1 - p0)`. -/
def glmDistance (env : Env F) (p0 p1 : Vec2 F) : F := glmLength env (Vec2.sub p1 p0)

/-- The function `glm::normalize(v) = v * inversesqrt(dot(v, v))`. -/
def glmNormalize (env : Env F) (v : Vec2 F) : Vec2 F :=
  Vec2.mulScalar v (1 / env.sqrt (Vec2.dot v v))

/-- The function `std::clamp(v, lo, hi)`. -/
def stdClamp (v lo hi : F) : F := if v < lo then lo else if hi < v then hi else v

end Glm

namespace FluidParticleSystem

variable {F : Type} [LinearOrderedField F]

/-! ## Smoothing kernels (source lines 114-152) -/

/-- Source `kernelPoly6_2D`. -/
def kernelPoly6_2D (s : FluidParticleSystem F) (distance radius : F) : F :=
  if distance ≥ radius then 0
  else
    let v := radius * radius - distance * distance
    s.scalingFactorPoly6_2D * v * v * v

/-- Source `kernelSpikyPow3_2D`. -/
def kernelSpikyPow3_2D (s : FluidParticleSystem F) (distance radius : F) : F :=
  if distance ≥ radius then 0
  else
    let v := radius - distance
    s.scalingFactorSpikyPow3_2D * v * v * v

/-- Source `derivativeSpikyPow3_2D`. -/
def derivativeSpikyPow3_2D (s : FluidParticleSystem F) (distance radius : F) : F :=
  if distance ≥ radius then 0
  else
    let v := radius - distance
    (-3) * s.scalingFactorSpikyPow3_2D * v * v

/-- Source `kernelSpikyPow2_2D`. -/
def kernelSpikyPow2_2D (s : FluidParticleSystem F) (distance radius : F) : F :=
  if distance ≥ radius then 0
  else
    let v := radius - distance
    s.scalingFactorSpikyPow2_2D * v * v

/-- Source `derivativeSpikyPow2_2D`. -/
def derivativeSpikyPow2_2D (s : FluidParticleSystem F) (distance radius : F) : F :=
  if distance ≥ radius then 0
  else
    let v := radius - distance
    (-2) * s.scalingFactorSpikyPow2_2D * v

/-! ## Spatial hash (source lines 212-276) -/

/-- Conversion of a `float` to `int`: the fractional part is discarded (truncation toward
zero).  This is the C++ value as long as the truncated value fits a 32-bit `int`
(`IntConvertible` below); beyond that range the C++ conversion is undefined and the value
here is the unbounded mathematical one. -/
def truncToInt [FloorRing F] (q : F) : Int := if 0 ≤ q then ⌊q⌋ else ⌈q⌉

/-- The conversion of `q` to `int` is defined: `q` with its fractional part discarded lies
in `[-2^31, 2^31 - 1]`. -/
def IntConvertible (q : F) : Prop := -2147483649 < q ∧ q < 2147483648

/-- Reduction of an integer into the 32-bit two's-complement range of `int`. -/
def wrapInt32 (z : Int) : Int := (z + 2147483648) % 4294967296 - 2147483648

/-- Source `pos2gridCoord`: float division by the integer grid width, then conversion to
`int`.  The components are the C++ values where the quotients are `IntConvertible`.  (For
`gridWidth = 0` the C++ quotient is infinite or NaN and its conversion undefined; here it
is the field's `x / 0 = 0`.) -/
def pos2gridCoord [FloorRing F] (position : Vec2 F) (gridWidth : Int) : Int2 :=
  ⟨truncToInt (position.x / (gridWidth : F)), truncToInt (position.y / (gridWidth : F))⟩

/-- Source `hashGridCoord2D`: `gridCoord.x * 73856093 ^ gridCoord.y * 83492791` on 32-bit
`int` (the products bind tighter than the exclusive or). -/
def hashGridCoord2D (gridCoord : Int2) : Int :=
  Int.xor (wrapInt32 (gridCoord.x * 73856093)) (wrapInt32 (gridCoord.y * 83492791))

/-- Modelled from the spec: `LveMath::positiveMod` (header `lve_math.hpp`, absent from the
sources), the modulo whose result lies in `[0, b)`. -/
def positiveMod (a : Int) (b : Nat) : Nat := (a % (b : Int)).toNat

/-- Modelled from the spec: `LveMath::intPow` (header `lve_math.hpp`, absent from the
sources), the power with a natural exponent. -/
def intPow (x : F) (n : Nat) : F := x ^ n

/-- Modelled from the spec: the table `offset2D` (declared in the absent header), the
offsets of a cell and its 8 surrounding cells. -/
def offset2D : List Int2 :=
  [⟨-1, -1⟩, ⟨-1, 0⟩, ⟨-1, 1⟩, ⟨0, -1⟩, ⟨0, 0⟩, ⟨0, 1⟩, ⟨1, -1⟩, ⟨1, 0⟩, ⟨1, 1⟩]

/-- The hash key of a position: the value stored by the first loop of
`updateSpatialLookup`. -/
def hashKeyOf [FloorRing F] (s : FluidParticleSystem F) (position : Vec2 F) : Nat :=
  positiveMod (hashGridCoord2D (pos2gridCoord position (truncToInt s.smoothRadius)))
    s.particleCount

/-- The comparator handed to `std::sort`, as a non-strict order on keys. -/
def keyLE (a b : SpatialHashEntry) : Prop := a.spatialHashKey ≤ b.spatialHashKey

instance : DecidableRel keyLE := fun a b => Nat.decLe a.spatialHashKey b.spatialHashKey

instance : IsTotal SpatialHashEntry keyLE :=
  ⟨fun a b => Nat.le_total a.spatialHashKey b.spatialHashKey⟩

instance : IsTrans SpatialHashEntry keyLE := ⟨fun _ _ _ hab hbc => Nat.le_trans hab hbc⟩

/-- Source `updateSpatialLookup`, first loop: write entry `i`. -/
def fillLookupBody [FloorRing F] (i : Nat) (s : FluidParticleSystem F) :
    FluidParticleSystem F :=
  let hashKey := hashKeyOf s (s.nextPositionData.getD i Vec2.zero)
  { s with spacialLookup := s.spacialLookup.set i ⟨i, hashKey⟩ }

/-- Source `updateSpatialLookup`, last loop: record where a run of equal keys starts.
The `-1` assigned to the unsigned `keyPrev` at `i = 0` is `4294967295`. -/
def bucketStartBody (i : Nat) (s : FluidParticleSystem F) : FluidParticleSystem F :=
  let key := (s.spacialLookup.getD i ⟨0, 0⟩).spatialHashKey
  let keyPrev := if i = 0 then 4294967295 else (s.spacialLookup.getD (i - 1) ⟨0, 0⟩).spatialHashKey
  if key ≠ keyPrev then { s with spacialLookupEntry := s.spacialLookupEntry.set key i } else s

/-- Source `updateSpatialLookup`.  `std::sort` is represented by insertion sort on the keys
(the C++ standard leaves the order of equal keys open). -/
def updateSpatialLookup [FloorRing F] (s : FluidParticleSystem F) : FluidParticleSystem F :=
  let s1 := forLoop s.particleCount fillLookupBody s
  let s2 := { s1 with spacialLookup := s1.spacialLookup.insertionSort keyLE }
  forLoop s2.particleCount bucketStartBody s2

/-- Source `foreachNeighbor`, inner loop `for (j = startIndex; j < particleCount; j++)`:
the neighbour indices handed to the callback, in order.  The first argument is the number of
iterations left, `particleCount - j`. -/
def scanBucket (s : FluidParticleSystem F) (hashKey particleIndex : Nat) : Nat → Nat → List Nat
  | 0, _ => []
  | fuel + 1, j =>
    let e := s.spacialLookup.getD j ⟨0, 0⟩
    if e.spatialHashKey ≠ hashKey then []
    else
      (if e.particleIndex ≠ particleIndex then [e.particleIndex] else []) ++
        scanBucket s hashKey particleIndex fuel (j + 1)

/-- Source `foreachNeighbor`, body of the loop over the nine offsets. -/
def scanCell (s : FluidParticleSystem F) (particleIndex : Nat) (gridPos offset : Int2) :
    List Nat :=
  let offsetGridPos : Int2 := ⟨gridPos.x + offset.x, gridPos.y + offset.y⟩
  let hashKey := positiveMod (hashGridCoord2D offsetGridPos) s.particleCount
  let startIndex := s.spacialLookupEntry.getD hashKey 0
  scanBucket s hashKey particleIndex (s.particleCount - startIndex) startIndex

/-- Source `foreachNeighbor`: the sequence of arguments with which the callback is invoked. -/
def foreachNeighbor [FloorRing F] (s : FluidParticleSystem F) (particleIndex : Nat) :
    List Nat :=
  let particleNextPos := s.nextPositionData.getD particleIndex Vec2.zero
  let gridPos := pos2gridCoord particleNextPos (truncToInt s.smoothRadius)
  offset2D.foldl (fun visited offset => visited ++ scanCell s particleIndex gridPos offset) []

/-! ## Density and pressure (source lines 154-193) -/

/-- Source `calculateDensity`. -/
def calculateDensity (env : Env F) (s : FluidParticleSystem F) (samplePos : Vec2 F) : F :=
  forLoop s.particleCount
    (fun i density =>
      let distance := glmDistance env samplePos (s.positionData.getD i Vec2.zero)
      let influence := kernelPoly6_2D s distance s.smoothRadius
      density + s.massData.getD i 0 * influence)
    0

/-- Source `calculatePressureForce`, the callback: the accumulator is the captured
`pressureForce` together with the number of random draws taken. -/
def pressureCallback (env : Env F) (s : FluidParticleSystem F) (particleIndex : Nat)
    (acc : Vec2 F × Nat) (neighborIndex : Nat) : Vec2 F × Nat :=
  let particleNextPos := s.nextPositionData.getD particleIndex Vec2.zero
  let pressureThis := s.pressureMultiplier * (s.densityData.getD particleIndex 0 - s.targetDensity)
  let neighborPos := s.nextPositionData.getD neighborIndex Vec2.zero
  let distance := glmDistance env particleNextPos neighborPos
  if distance ≥ s.smoothRadius then acc
  else
    let dirDraw : Vec2 F × Nat :=
      if distance < env.epsilon then (env.circularRand acc.2, acc.2 + 1)
      else (glmNormalize env (Vec2.sub neighborPos particleNextPos), acc.2)
    let pressureOther :=
      s.pressureMultiplier * (s.densityData.getD neighborIndex 0 - s.targetDensity)
    let sharedPressure := (pressureThis + pressureOther) / 2
    (Vec2.add acc.1
      (Vec2.scale
        (sharedPressure * derivativeSpikyPow2_2D s distance s.smoothRadius *
          s.massData.getD neighborIndex 0 / s.densityData.getD neighborIndex 0)
        dirDraw.1),
     dirDraw.2)

/-- Source `calculatePressureForce`: the force, and the random-draw counter afterwards. -/
def calculatePressureForce [FloorRing F] (env : Env F) (s : FluidParticleSystem F)
    (particleIndex : Nat) : Vec2 F × Nat :=
  (foreachNeighbor s particleIndex).foldl (pressureCallback env s particleIndex)
    (Vec2.zero, s.randCalls)

/-! ## Boundary (source lines 195-210) -/

/-- Source `handleBoundaryCollision`, the x-axis `if` of the loop body. -/
def boundaryX (i : Nat) (s : FluidParticleSystem F) : FluidParticleSystem F :=
  let p := s.positionData.getD i Vec2.zero
  let v := s.velocityData.getD i Vec2.zero
  if p.x < 0 ∨ p.x > (s.windowWidth : F) then
    { s with
      positionData := s.positionData.set i ⟨stdClamp p.x 0 (s.windowWidth : F), p.y⟩
      velocityData := s.velocityData.set i ⟨v.x * (-s.collisionDamping), v.y⟩ }
  else s

/-- Source `handleBoundaryCollision`, the y-axis `if` of the loop body. -/
def boundaryY (i : Nat) (s : FluidParticleSystem F) : FluidParticleSystem F :=
  let p := s.positionData.getD i Vec2.zero
  let v := s.velocityData.getD i Vec2.zero
  if p.y < 0 ∨ p.y > (s.windowHeight : F) then
    { s with
      positionData := s.positionData.set i ⟨p.x, stdClamp p.y 0 (s.windowHeight : F)⟩
      velocityData := s.velocityData.set i ⟨v.x, v.y * (-s.collisionDamping)⟩ }
  else s

/-- Source `handleBoundaryCollision`. -/
def handleBoundaryCollision (s : FluidParticleSystem F) : FluidParticleSystem F :=
  forLoop s.particleCount (fun i st => boundaryY i (boundaryX i st)) s

/-! ## Simulation step (source lines 85-112) -/

/-- Source `updateParticleData`, body of the prediction loop. -/
def predictBody (env : Env F) (i : Nat) (s : FluidParticleSystem F) : FluidParticleSystem F :=
  { s with
    nextPositionData :=
      s.nextPositionData.set i
        (Vec2.add (s.positionData.getD i Vec2.zero)
          (Vec2.mulScalar (s.velocityData.getD i Vec2.zero) env.lookAheadTime)) }

/-- Source `updateParticleData`, body of the density loop. -/
def densityBody (env : Env F) (i : Nat) (s : FluidParticleSystem F) : FluidParticleSystem F :=
  { s with
    densityData :=
      s.densityData.set i (calculateDensity env s (s.nextPositionData.getD i Vec2.zero)) }

/-- Source `updateParticleData`, body of the velocity loop. -/
def velocityBody [FloorRing F] (env : Env F) (deltaTime : F) (i : Nat)
    (s : FluidParticleSystem F) : FluidParticleSystem F :=
  let pressureForce := calculatePressureForce env s i
  let gravityAcc : Vec2 F := ⟨0, s.gravityAccValue * s.massData.getD i 0⟩
  let acceleration := Vec2.add (Vec2.divScalar pressureForce.1 (s.densityData.getD i 0)) gravityAcc
  { s with
    velocityData :=
      s.velocityData.set i
        (Vec2.add (s.velocityData.getD i Vec2.zero) (Vec2.mulScalar acceleration deltaTime))
    randCalls := pressureForce.2 }

/-- Source `updateParticleData`, body of the position loop. -/
def positionBody (deltaTime : F) (i : Nat) (s : FluidParticleSystem F) :
    FluidParticleSystem F :=
  { s with
    positionData :=
      s.positionData.set i
        (Vec2.add (s.positionData.getD i Vec2.zero)
          (Vec2.mulScalar (s.velocityData.getD i Vec2.zero) deltaTime)) }

/-- Source `updateParticleData`. -/
def updateParticleData [FloorRing F] (env : Env F) (deltaTime : F)
    (s : FluidParticleSystem F) : FluidParticleSystem F :=
  let s1 := forLoop s.particleCount (predictBody env) s
  let s2 := updateSpatialLookup s1
  let s3 := forLoop s2.particleCount (densityBody env) s2
  let s4 := forLoop s3.particleCount (velocityBody env deltaTime) s3
  let s5 := forLoop s4.particleCount (positionBody deltaTime) s4
  handleBoundaryCollision s5

/-- The header's `updateWindowExtent`, called by the application before every step. -/
def updateWindowExtent (width height : Nat) (s : FluidParticleSystem F) :
    FluidParticleSystem F :=
  { s with windowWidth := width, windowHeight := height }

/-! ## Configuration (source lines 12-83) -/

/-- The tunable values that `reloadConfigParam` reads from the configuration file. -/
structure Config (F : Type) where
  smoothRadius : F
  collisionDamping : F
  targetDensity : F
  pressureMultiplier : F
  gravityAccValue : F

/-- Source `reloadConfigParam`; `config` is what the re-read file contains. -/
def reloadConfigParam (env : Env F) (config : Config F) (s : FluidParticleSystem F) :
    FluidParticleSystem F :=
  { s with
    smoothRadius := config.smoothRadius
    collisionDamping := config.collisionDamping
    targetDensity := config.targetDensity
    pressureMultiplier := config.pressureMultiplier
    gravityAccValue := config.gravityAccValue
    scalingFactorPoly6_2D := 4 / (env.pi * intPow config.smoothRadius 8)
    scalingFactorSpikyPow3_2D := 10 / (env.pi * intPow config.smoothRadius 5)
    scalingFactorSpikyPow2_2D := 6 / (env.pi * intPow config.smoothRadius 4) }

/-- The method `std::vector::resize(n)`: keep the first `n` elements, pad with `d`. -/
def vectorResize {α : Type} (xs : List α) (n : Nat) (d : α) : List α :=
  xs.take n ++ List.replicate (n - xs.length) d

/-- The function `std::fmod`: the remainder of the division truncated toward zero. -/
def stdFmod [FloorRing F] (x y : F) : F := x - (truncToInt (x / y) : F) * y

/-- Source `initParticleData`, loop body.  Integer division or remainder by zero is a
trap and yields `none`. -/
def initBody (env : Env F) (startPoint : Vec2 F) (stride : F) (cntPerRow : Int)
    (randomize : Bool) (s : FluidParticleSystem F) (i : Nat) :
    Option (FluidParticleSystem F) :=
  if cntPerRow = 0 then none
  else
    let row : Int := Int.tdiv (i : Int) cntPerRow
    let col : Int := Int.tmod (i : Int) cntPerRow
    if randomize then
      if s.windowWidth = 0 ∨ s.windowHeight = 0 then none
      else
        some { s with
          positionData :=
            s.positionData.set i
              ⟨((env.stdRand s.randCalls % s.windowWidth : Nat) : F),
               ((env.stdRand (s.randCalls + 1) % s.windowHeight : Nat) : F)⟩
          velocityData := s.velocityData.set i Vec2.zero
          massData := s.massData.set i 100
          randCalls := s.randCalls + 2 }
    else
      some { s with
        positionData :=
          s.positionData.set i (Vec2.add startPoint ⟨(col : F) * stride, (row : F) * stride⟩)
        velocityData := s.velocityData.set i Vec2.zero
        massData := s.massData.set i 100 }

/-- Source `initParticleData`, the seven `resize(particleCount)` calls. -/
def resizeVectors (s : FluidParticleSystem F) : FluidParticleSystem F :=
  { s with
    positionData := vectorResize s.positionData s.particleCount Vec2.zero
    nextPositionData := vectorResize s.nextPositionData s.particleCount Vec2.zero
    velocityData := vectorResize s.velocityData s.particleCount Vec2.zero
    densityData := vectorResize s.densityData s.particleCount 0
    massData := vectorResize s.massData s.particleCount 0
    spacialLookup := vectorResize s.spacialLookup s.particleCount ⟨0, 0⟩
    spacialLookupEntry := vectorResize s.spacialLookupEntry s.particleCount 0 }

/-- Source `initParticleData`. -/
def initParticleData [FloorRing F] (env : Env F) (startPoint : Vec2 F) (stride maxWidth : F)
    (randomize : Bool) (s : FluidParticleSystem F) : Option (FluidParticleSystem F) :=
  let s0 : FluidParticleSystem F := resizeVectors s
  let maxWidth1 := maxWidth - stdFmod maxWidth stride
  let cntPerRow : Int := truncToInt (maxWidth1 / stride)
  (List.range s0.particleCount).foldlM (initBody env startPoint stride cntPerRow randomize) s0

end FluidParticleSystem

/-- What is required of a kernel `k distance radius` over the reals: it vanishes for
`distance ≥ radius`, it is continuous in `distance` at `distance = radius`, and its values
for `distance < radius` tend to `0` as `distance` tends to `radius` from below. -/
def KernelContract (k : ℝ → ℝ → ℝ) : Prop :=
  (∀ distance radius, distance ≥ radius → k distance radius = 0) ∧
  (∀ radius, ContinuousAt (fun distance => k distance radius) radius) ∧
  (∀ radius, Filter.Tendsto (fun distance => k distance radius)
    (nhdsWithin radius (Set.Iio radius)) (nhds 0))

/-- The lookup entry that the first loop of `updateSpatialLookup` writes at index `i`. -/
def FluidParticleSystem.entryOf {F : Type} [LinearOrderedField F] [FloorRing F]
    (s : FluidParticleSystem F) (i : Nat) : SpatialHashEntry :=
  ⟨i, FluidParticleSystem.hashKeyOf s (s.nextPositionData.getD i Vec2.zero)⟩

/-- Data-model invariant: the lookup list and the bucket-start table have `particleCount`
elements, and `particleCount` fits the `unsigned int` that holds it. -/
def FluidParticleSystem.LookupSized {F : Type} (s : FluidParticleSystem F) : Prop :=
  s.spacialLookup.length = s.particleCount ∧
  s.spacialLookupEntry.length = s.particleCount ∧
  s.particleCount < 4294967296

/-- The sorted lookup list that `updateSpatialLookup` leaves behind. -/
def FluidParticleSystem.sortedLookup {F : Type} [LinearOrderedField F] [FloorRing F]
    (s : FluidParticleSystem F) : List SpatialHashEntry :=
  ((List.range s.particleCount).map (FluidParticleSystem.entryOf s)).insertionSort
    FluidParticleSystem.keyLE

/-- The effect of one iteration of the last loop of `updateSpatialLookup` on the bucket-start
table, for a fixed lookup list. -/
def bucketStep (lookup : List SpatialHashEntry) (i : Nat) (table : List Nat) : List Nat :=
  let key := (lookup.getD i ⟨0, 0⟩).spatialHashKey
  let keyPrev := if i = 0 then 4294967295 else (lookup.getD (i - 1) ⟨0, 0⟩).spatialHashKey
  if key ≠ keyPrev then table.set key i else table

/-- The position of the first entry of a lookup list whose key is `k` (the length of the
list when there is none). -/
def firstIndexOfKey (lookup : List SpatialHashEntry) (k : Nat) : Nat :=
  lookup.findIdx (fun e => decide (e.spatialHashKey = k))

/-- The element `positionData[i]`. -/
def FluidParticleSystem.positionAt {F : Type} [LinearOrderedField F]
    (s : FluidParticleSystem F) (i : Nat) : Vec2 F := s.positionData.getD i Vec2.zero

/-- The element `velocityData[i]`. -/
def FluidParticleSystem.velocityAt {F : Type} [LinearOrderedField F]
    (s : FluidParticleSystem F) (i : Nat) : Vec2 F := s.velocityData.getD i Vec2.zero

/-- The element `nextPositionData[i]`. -/
def FluidParticleSystem.nextPositionAt {F : Type} [LinearOrderedField F]
    (s : FluidParticleSystem F) (i : Nat) : Vec2 F := s.nextPositionData.getD i Vec2.zero

/-- What one iteration of the loop of `handleBoundaryCollision` reads and writes for
particle `k`: the damping, the window extent, the vector lengths and the two elements. -/
def FluidParticleSystem.boundaryView {F : Type} [LinearOrderedField F]
    (s : FluidParticleSystem F) (k : Nat) : F × Nat × Nat × Nat × Nat × Vec2 F × Vec2 F :=
  (s.collisionDamping, s.windowWidth, s.windowHeight, s.positionData.length,
    s.velocityData.length, s.positionAt k, s.velocityAt k)

/-- An operation the application performs on the system between two observations: a
simulation step (`updateWindowExtent` followed by `updateParticleData`), or a parameter
reload with the given file contents. -/
inductive Op (F : Type) where
  | step (deltaTime : F) (width height : Nat) : Op F
  | reload (config : FluidParticleSystem.Config F) : Op F

/-- Apply one operation. -/
def applyOp {F : Type} [LinearOrderedField F] [FloorRing F] (env : Env F)
    (s : FluidParticleSystem F) : Op F → FluidParticleSystem F
  | Op.step deltaTime width height =>
    FluidParticleSystem.updateParticleData env deltaTime
      (FluidParticleSystem.updateWindowExtent width height s)
  | Op.reload config => FluidParticleSystem.reloadConfigParam env config s

/-- Apply a finite sequence of operations, first to last. -/
def runOps {F : Type} [LinearOrderedField F] [FloorRing F] (env : Env F)
    (ops : List (Op F)) (s : FluidParticleSystem F) : FluidParticleSystem F :=
  ops.foldl (applyOp env) s

/-- The loop body of `initParticleData` for a non-zero column count and `randomize = false`. -/
def FluidParticleSystem.gridBody {F : Type} [LinearOrderedField F] (startPoint : Vec2 F)
    (stride : F) (cntPerRow : Int) (s : FluidParticleSystem F) (i : Nat) :
    FluidParticleSystem F :=
  { s with
    positionData :=
      s.positionData.set i
        (Vec2.add startPoint
          ⟨((Int.tmod (i : Int) cntPerRow : Int) : F) * stride,
           ((Int.tdiv (i : Int) cntPerRow : Int) : F) * stride⟩)
    velocityData := s.velocityData.set i Vec2.zero
    massData := s.massData.set i 100 }

/-- The density of particle `i` as the specification words it: the sum over all particles
`j` of `mass[j] * Poly6(distance(predictedPosition[i], predictedPosition[j]), smoothRadius)`,
both end points being predicted positions. -/
def FluidParticleSystem.densityFromPredicted {F : Type} [LinearOrderedField F] (env : Env F)
    (s : FluidParticleSystem F) (i : Nat) : F :=
  ((List.range s.particleCount).map (fun j =>
    s.massData.getD j 0 *
      FluidParticleSystem.kernelPoly6_2D s
        (glmDistance env (s.nextPositionAt i) (s.nextPositionAt j)) s.smoothRadius)).sum

/-- The members that a simulation step only reads: the particle count, the tunable
coefficients, the scaling factors, the window extent and the masses. -/
def FluidParticleSystem.constView {F : Type} (s : FluidParticleSystem F) :
    Nat × F × F × F × F × F × F × F × F × Nat × Nat × List F :=
  (s.particleCount, s.smoothRadius, s.collisionDamping, s.targetDensity, s.pressureMultiplier,
    s.gravityAccValue, s.scalingFactorPoly6_2D, s.scalingFactorSpikyPow3_2D,
    s.scalingFactorSpikyPow2_2D, s.windowWidth, s.windowHeight, s.massData)

/-- The pressure force on particle `i` from a single neighbour `j` as the specification
words it: `sharedPressure * derivativeSpikyPow2_2D(d, smoothRadius) * mass[j] / density[j]
* dir`, with `d` the distance of the predicted positions, `dir` the unit vector from `i`
toward `j` and `sharedPressure` the mean of the two pressures. -/
def FluidParticleSystem.pairForceFormula {F : Type} [LinearOrderedField F] (env : Env F)
    (s : FluidParticleSystem F) (i j : Nat) : Vec2 F :=
  let d := glmDistance env (s.nextPositionAt i) (s.nextPositionAt j)
  let dir := glmNormalize env (Vec2.sub (s.nextPositionAt j) (s.nextPositionAt i))
  let sharedPressure :=
    (s.pressureMultiplier * (s.densityData.getD i 0 - s.targetDensity) +
      s.pressureMultiplier * (s.densityData.getD j 0 - s.targetDensity)) / 2
  Vec2.scale
    (sharedPressure * FluidParticleSystem.derivativeSpikyPow2_2D s d s.smoothRadius *
      s.massData.getD j 0 / s.densityData.getD j 0)
    dir

/-- The key of the lookup entry at position `m`, `spacialLookup[m].spatialHashKey`. -/
def FluidParticleSystem.lookupKeyAt {F : Type} (s : FluidParticleSystem F) (m : Nat) : Nat :=
  (s.spacialLookup.getD m ⟨0, 0⟩).spatialHashKey

/-- The particle of the lookup entry at position `m`, `spacialLookup[m].particleIndex`. -/
def FluidParticleSystem.lookupIndexAt {F : Type} (s : FluidParticleSystem F) (m : Nat) : Nat :=
  (s.spacialLookup.getD m ⟨0, 0⟩).particleIndex

/-- The recorded start of bucket `k`, `spacialLookupEntry[k]`. -/
def FluidParticleSystem.bucketStartAt {F : Type} (s : FluidParticleSystem F) (k : Nat) : Nat :=
  s.spacialLookupEntry.getD k 0

/-- The positions of the lookup list whose entry has key `k`, in increasing order. -/
def FluidParticleSystem.keyRun {F : Type} (s : FluidParticleSystem F) (k : Nat) : List Nat :=
  (List.range s.particleCount).filter (fun m => decide (s.lookupKeyAt m = k))

/-- One index rebuild for the given radius and predicted positions. -/
def FluidParticleSystem.rebuildWith {F : Type} [LinearOrderedField F] [FloorRing F]
    (s : FluidParticleSystem F) (frame : F × List (Vec2 F)) : FluidParticleSystem F :=
  FluidParticleSystem.updateSpatialLookup
    { s with smoothRadius := frame.1, nextPositionData := frame.2 }

/-- A sequence of index rebuilds, one for each given radius and array of predicted
positions. -/
def FluidParticleSystem.rebuildSeq {F : Type} [LinearOrderedField F] [FloorRing F]
    (frames : List (F × List (Vec2 F))) (s : FluidParticleSystem F) : FluidParticleSystem F :=
  frames.foldl FluidParticleSystem.rebuildWith s

/-- What the neighbour scan relies on: the tables have `particleCount` elements, the lookup
list is sorted by key, the start recorded for the key of every lookup entry is the first
position of that key, and every recorded start is below `particleCount`. -/
def FluidParticleSystem.ScanReady {F : Type} (s : FluidParticleSystem F) : Prop :=
  s.LookupSized ∧ s.spacialLookup.Pairwise FluidParticleSystem.keyLE ∧
  (∀ m (hm : m < s.spacialLookup.length),
    s.spacialLookupEntry.getD (s.spacialLookup[m]).spatialHashKey 0 =
      firstIndexOfKey s.spacialLookup (s.spacialLookup[m]).spatialHashKey) ∧
  ∀ v ∈ s.spacialLookupEntry, v < s.particleCount

/-! ## Concrete systems over the rationals -/

/-- A rational square root, exact on quotients of perfect squares. -/
def ratSqrt (q : ℚ) : ℚ := (Nat.sqrt q.num.toNat : ℚ) / (Nat.sqrt q.den : ℚ)

/-- An environment over `ℚ`: `22/7` stands in for `M_PI`, `2⁻²³` for
`glm::epsilon<float>()`, and the look-ahead time is `1/120`. -/
def ratEnv : Env ℚ where
  pi := 22 / 7
  epsilon := 1 / 8388608
  lookAheadTime := 1 / 120
  sqrt := ratSqrt
  circularRand := fun _ => ⟨1, 0⟩
  stdRand := fun n => n

/-- A system of `positions.length` particles of mass `100` in a `100 × 100` window, with
predicted positions equal to the positions, freshly sized lookup tables and the scaling
factors that `reloadConfigParam` computes for `smoothRadius`. -/
def mkSystem (smoothRadius : ℚ) (positions velocities : List (Vec2 ℚ)) :
    FluidParticleSystem ℚ where
  particleCount := positions.length
  smoothRadius := smoothRadius
  collisionDamping := 1 / 2
  targetDensity := 1
  pressureMultiplier := 1
  gravityAccValue := 0
  scalingFactorPoly6_2D := 4 / (ratEnv.pi * FluidParticleSystem.intPow smoothRadius 8)
  scalingFactorSpikyPow3_2D := 10 / (ratEnv.pi * FluidParticleSystem.intPow smoothRadius 5)
  scalingFactorSpikyPow2_2D := 6 / (ratEnv.pi * FluidParticleSystem.intPow smoothRadius 4)
  windowWidth := 100
  windowHeight := 100
  positionData := positions
  nextPositionData := positions
  velocityData := velocities
  densityData := List.replicate positions.length 0
  massData := List.replicate positions.length 100
  spacialLookup := List.replicate positions.length ⟨0, 0⟩
  spacialLookupEntry := List.replicate positions.length 0
  randCalls := 0

/-- A step at `1/60` s, a reload that changes every tunable value, and another step. -/
def sampleOps : List (Op ℚ) :=
  [Op.step (1 / 60) 100 100, Op.reload ⟨3, 1 / 4, 2, 5, -49 / 5⟩, Op.step (1 / 60) 80 60]

/-- Six particles with `smoothRadius = 3/2`: particle 0 at `(9/10, 0)`, particle 1 at
`(11/5, 0)`, the others at the origin. -/
def sparseSystem : FluidParticleSystem ℚ :=
  mkSystem (3 / 2) [⟨9 / 10, 0⟩, ⟨11 / 5, 0⟩, ⟨0, 0⟩, ⟨0, 0⟩, ⟨0, 0⟩, ⟨0, 0⟩]
    (List.replicate 6 Vec2.zero)

/-- The object as the constructor leaves it before calling `initParticleData`: the
configuration values are set and every vector is still empty. -/
def constructedSystem (particleCount : Nat) (smoothRadius : ℚ) : FluidParticleSystem ℚ :=
  { mkSystem smoothRadius [] [] with particleCount := particleCount }

/-- One particle at `(-5, 10)` with velocity `(-3, 0)`; the damping is `1/2` and the window
is `100 × 100`. -/
def outsideSystem : FluidParticleSystem ℚ :=
  mkSystem 2 [⟨-5, 10⟩] [⟨-3, 0⟩]

/-- One particle at `(0, 0)` moving with velocity `(120, 0)`; with the look-ahead time
`1/120` its predicted position is `(1, 0)`. -/
def driftSystem : FluidParticleSystem ℚ :=
  mkSystem 2 [⟨0, 0⟩] [⟨120, 0⟩]

/-- One particle at rest at `(-5, 10)`, outside the `100 × 100` window, no gravity. -/
def restOutsideSystem : FluidParticleSystem ℚ :=
  mkSystem 2 [⟨-5, 10⟩] [⟨0, 0⟩]

/-- One particle at rest at `(3, 4)`, inside the `100 × 100` window, no gravity. -/
def restInsideSystem : FluidParticleSystem ℚ :=
  mkSystem 2 [⟨3, 4⟩] [⟨0, 0⟩]

/-- Two particles at `(0, 0)` and `(1, 0)` with `smoothRadius = 2`. -/
def pairSystem : FluidParticleSystem ℚ :=
  mkSystem 2 [⟨0, 0⟩, ⟨1, 0⟩] [Vec2.zero, Vec2.zero]

/-- The two particles of `pairSystem` with equal density `2`, above the target density `1`;
the pressure multiplier is `1`. -/
def pressedPairSystem : FluidParticleSystem ℚ :=
  { pairSystem with densityData := [2, 2] }

/-- One particle at `(0, 0)` moving with velocity `(240, 0)`; with the look-ahead time
`1/120` its predicted position is `(2, 0)`, a full `smoothRadius = 2` away from where it
is. -/
def fastSystem : FluidParticleSystem ℚ :=
  mkSystem 2 [⟨0, 0⟩] [⟨240, 0⟩]

/-- One particle with `smoothRadius = 1/2`. -/
def subPixelSystem : FluidParticleSystem ℚ :=
  mkSystem (1 / 2) [⟨3, 4⟩] [⟨0, 0⟩]

/-- Two rebuilds of a two-particle system: first with radius `2` and predicted positions
`(0, 0)`, `(1, 0)`, then with radius `3/2` and predicted positions `(5, 5)`, `(0, 0)`. -/
def sampleFrames : List (ℚ × List (Vec2 ℚ)) :=
  [(2, [⟨0, 0⟩, ⟨1, 0⟩]), (3 / 2, [⟨5, 5⟩, ⟨0, 0⟩])]

/-! # Properties -/

/-! ## Loops -/

theorem forLoop_zero {σ : Type} (body : Nat → σ → σ) (s : σ) : forLoop 0 body s = s := rfl

theorem forLoop_succ {σ : Type} (n : Nat) (body : Nat → σ → σ) (s : σ) :
    forLoop (n + 1) body s = body n (forLoop n body s) := by
  simp [forLoop, List.range_succ, List.foldl_append]

/-- A property kept by every iteration is kept by the loop. -/
theorem forLoop_preserves {σ : Type} (P : σ → Prop) (body : Nat → σ → σ)
    (hbody : ∀ i s, P s → P (body i s)) (n : Nat) (s : σ) (hs : P s) :
    P (forLoop n body s) := by
  induction n with
  | zero => exact hs
  | succ n ih => rw [forLoop_succ]; exact hbody n _ ih

/-- A projection left alone by every iteration is left alone by the loop. -/
theorem forLoop_proj_eq {σ α : Type} (proj : σ → α) (body : Nat → σ → σ)
    (hbody : ∀ i s, proj (body i s) = proj s) (n : Nat) (s : σ) :
    proj (forLoop n body s) = proj s := by
  induction n with
  | zero => rfl
  | succ n ih => rw [forLoop_succ, hbody, ih]

/-- A loop that stores `f i` at index `i` of a list of length `n` produces `f` tabulated. -/
theorem forLoop_set_eq_map {α : Type} (f : Nat → α) (l : List α) :
    ∀ n, n ≤ l.length →
      forLoop n (fun i acc => acc.set i (f i)) l = (List.range n).map f ++ l.drop n := by
  intro n
  induction n with
  | zero => intro _; simp [forLoop_zero]
  | succ n ih =>
    intro hn
    rw [forLoop_succ, ih (by omega)]
    have hlen : ((List.range n).map f).length = n := by simp
    rw [List.set_append_right _ _ (by omega), hlen, Nat.sub_self]
    have hd : l.drop n = l[n] :: l.drop (n + 1) := by
      rw [List.drop_eq_getElem_cons]
    rw [hd, List.set_cons_zero, List.range_succ, List.map_append]
    simp

/-! ## Bucket-start table -/

theorem bucketStep_length (lookup : List SpatialHashEntry) (i : Nat) (table : List Nat) :
    (bucketStep lookup i table).length = table.length := by
  simp only [bucketStep]
  split_ifs <;> simp only [List.length_set]

theorem bucketStep_eq (lookup : List SpatialHashEntry) (n : Nat) (table : List Nat)
    (hn : n < lookup.length) :
    bucketStep lookup n table =
      if (lookup[n]).spatialHashKey ≠
          (if n = 0 then 4294967295 else (lookup.getD (n - 1) ⟨0, 0⟩).spatialHashKey)
      then table.set (lookup[n]).spatialHashKey n else table := by
  simp only [bucketStep, List.getD_eq_getElem _ _ hn]

theorem bucketLoop_length (lookup : List SpatialHashEntry) (table : List Nat) (n : Nat) :
    (forLoop n (bucketStep lookup) table).length = table.length := by
  induction n with
  | zero => rfl
  | succ n ih => rw [forLoop_succ, bucketStep_length, ih]

theorem key_at_firstIndexOfKey (lookup : List SpatialHashEntry) (k : Nat)
    (h : firstIndexOfKey lookup k < lookup.length) :
    (lookup[firstIndexOfKey lookup k]).spatialHashKey = k := by
  have := List.findIdx_getElem (w := h)
  simpa using this

theorem firstIndexOfKey_le (lookup : List SpatialHashEntry) (m : Nat) (hm : m < lookup.length) :
    firstIndexOfKey lookup (lookup[m]).spatialHashKey ≤ m := by
  by_contra hlt
  unfold firstIndexOfKey at hlt
  have := @List.not_of_lt_findIdx _
    (fun e => decide (e.spatialHashKey = (lookup[m]).spatialHashKey)) lookup m
    (Nat.lt_of_not_le hlt)
  simp at this

/-- In a sorted lookup list whose keys are below `2^32 - 1`, the last loop of
`updateSpatialLookup` writes at step `n` exactly when `n` is the first position of its key. -/
theorem write_iff_first (lookup : List SpatialHashEntry)
    (hs : lookup.Pairwise FluidParticleSystem.keyLE)
    (hk : ∀ e ∈ lookup, e.spatialHashKey < 4294967295) (n : Nat) (hn : n < lookup.length) :
    ((lookup[n]).spatialHashKey ≠
        (if n = 0 then 4294967295 else (lookup.getD (n - 1) ⟨0, 0⟩).spatialHashKey)) ↔
      firstIndexOfKey lookup (lookup[n]).spatialHashKey = n := by
  rw [List.pairwise_iff_getElem] at hs
  unfold firstIndexOfKey
  rw [List.findIdx_eq hn]
  constructor
  · intro hne
    refine ⟨by simp, ?_⟩
    intro j hj
    have hn0 : n ≠ 0 := by omega
    rw [if_neg hn0, List.getD_eq_getElem _ _ (by omega : n - 1 < lookup.length)] at hne
    have h1 : (lookup[n - 1]).spatialHashKey ≤ (lookup[n]).spatialHashKey :=
      hs (n - 1) n (by omega) hn (by omega)
    have h2 : (lookup[j]).spatialHashKey ≤ (lookup[n - 1]).spatialHashKey := by
      rcases Nat.lt_or_ge j (n - 1) with h | h
      · exact hs j (n - 1) (by omega) (by omega) h
      · have : j = n - 1 := by omega
        subst this
        exact le_rfl
    have h3 : (lookup[j]).spatialHashKey ≠ (lookup[n]).spatialHashKey := by omega
    simpa using h3
  · rintro ⟨_, hprev⟩
    by_cases hn0 : n = 0
    · rw [if_pos hn0]
      exact Nat.ne_of_lt (hk _ (List.getElem_mem hn))
    · rw [if_neg hn0, List.getD_eq_getElem _ _ (by omega : n - 1 < lookup.length)]
      have := hprev (n - 1) (by omega)
      intro heq
      simp [heq] at this

/-- The bucket-start table after `n` iterations of the last loop of `updateSpatialLookup`:
slot `k` holds the first position of key `k` when that position is below `n`, and its old
content otherwise. -/
theorem bucketLoop_getElem? (lookup : List SpatialHashEntry)
    (hs : lookup.Pairwise FluidParticleSystem.keyLE)
    (hk : ∀ e ∈ lookup, e.spatialHashKey < 4294967295) (table : List Nat) :
    ∀ n, n ≤ lookup.length → ∀ k,
      (forLoop n (bucketStep lookup) table)[k]? =
        if firstIndexOfKey lookup k < n ∧ k < table.length then some (firstIndexOfKey lookup k)
        else table[k]? := by
  intro n
  induction n with
  | zero => intro _ k; simp [forLoop_zero]
  | succ n ih =>
    intro hn k
    have hn1 : n < lookup.length := by omega
    have ihk := ih (by omega)
    have hlen := bucketLoop_length lookup table n
    have hw := write_iff_first lookup hs hk n hn1
    have hfk : firstIndexOfKey lookup k = n → (lookup[n]).spatialHashKey = k := by
      intro h
      have h2 := key_at_firstIndexOfKey lookup k (by omega)
      simpa [h] using h2
    rw [forLoop_succ, bucketStep_eq lookup n (forLoop n (bucketStep lookup) table) hn1]
    by_cases hwrite : (lookup[n]).spatialHashKey ≠
        (if n = 0 then 4294967295 else (lookup.getD (n - 1) ⟨0, 0⟩).spatialHashKey)
    · rw [if_pos hwrite, List.getElem?_set, hlen]
      have hfirst := hw.1 hwrite
      by_cases hkey : (lookup[n]).spatialHashKey = k
      · rw [if_pos hkey]
        rw [hkey] at hfirst
        by_cases hkl : k < table.length
        · rw [hkey, if_pos hkl, if_pos ⟨by omega, hkl⟩, hfirst]
        · rw [hkey, if_neg hkl, if_neg (fun h => hkl h.2)]
          simp [List.getElem?_eq_none (Nat.le_of_not_lt hkl)]
      · rw [if_neg hkey, ihk k]
        have hne : firstIndexOfKey lookup k ≠ n := fun h => hkey (hfk h)
        by_cases hc : firstIndexOfKey lookup k < n ∧ k < table.length
        · rw [if_pos hc, if_pos ⟨by omega, hc.2⟩]
        · rw [if_neg hc, if_neg (fun h => hc ⟨by omega, h.2⟩)]
    · rw [if_neg hwrite, ihk k]
      have hne : firstIndexOfKey lookup k ≠ n := by
        intro h
        have hkey := hfk h
        apply hwrite
        rw [hw, hkey]
        exact h
      by_cases hc : firstIndexOfKey lookup k < n ∧ k < table.length
      · rw [if_pos hc, if_pos ⟨by omega, hc.2⟩]
      · rw [if_neg hc, if_neg (fun h => hc ⟨by omega, h.2⟩)]

/-! ## Index rebuild -/

namespace FluidParticleSystem

variable {F : Type} [LinearOrderedField F] [FloorRing F]

theorem fillLoop_eq (s : FluidParticleSystem F) (n : Nat) :
    forLoop n fillLookupBody s =
      { s with
        spacialLookup := forLoop n (fun i acc => acc.set i (entryOf s i)) s.spacialLookup } := by
  induction n with
  | zero => rfl
  | succ n ih => rw [forLoop_succ, forLoop_succ, ih]; rfl

theorem bucketLoop_eq {G : Type} (s : FluidParticleSystem G) (n : Nat) :
    forLoop n bucketStartBody s =
      { s with
        spacialLookupEntry := forLoop n (bucketStep s.spacialLookup) s.spacialLookupEntry } := by
  induction n with
  | zero => rfl
  | succ n ih =>
    rw [forLoop_succ, forLoop_succ, ih]
    simp only [bucketStartBody, bucketStep]
    split_ifs <;> rfl

/-- The rebuild changes the lookup list and the bucket-start table only, and the new lookup
list is the sorted list of the entries `(i, key of particle i)`. -/
theorem updateSpatialLookup_eq (s : FluidParticleSystem F)
    (hlen : s.spacialLookup.length = s.particleCount) :
    updateSpatialLookup s =
      { s with
        spacialLookup := sortedLookup s
        spacialLookupEntry :=
          forLoop s.particleCount (bucketStep (sortedLookup s)) s.spacialLookupEntry } := by
  unfold updateSpatialLookup
  simp only [fillLoop_eq, bucketLoop_eq]
  rw [forLoop_set_eq_map _ _ _ (le_of_eq hlen.symm)]
  simp [← hlen, sortedLookup]

theorem sortedLookup_perm (s : FluidParticleSystem F) :
    (sortedLookup s).Perm ((List.range s.particleCount).map (entryOf s)) :=
  List.perm_insertionSort _ _

theorem sortedLookup_sorted (s : FluidParticleSystem F) :
    (sortedLookup s).Pairwise keyLE :=
  List.sorted_insertionSort _ _

theorem sortedLookup_length (s : FluidParticleSystem F) :
    (sortedLookup s).length = s.particleCount := by
  simp [sortedLookup, List.length_insertionSort]

theorem mem_sortedLookup (s : FluidParticleSystem F) (e : SpatialHashEntry) :
    e ∈ sortedLookup s ↔ ∃ i, i < s.particleCount ∧ e = entryOf s i := by
  rw [(sortedLookup_perm s).mem_iff]
  simp only [List.mem_map, List.mem_range]
  constructor
  · rintro ⟨i, hi, rfl⟩; exact ⟨i, hi, rfl⟩
  · rintro ⟨i, hi, rfl⟩; exact ⟨i, hi, rfl⟩

end FluidParticleSystem

/-- Claim C1: after `updateSpatialLookup` the lookup list still has `particleCount` entries,
is sorted non-decreasing by `spatialHashKey`, its `particleIndex` fields are a permutation of
`0 .. particleCount - 1`, and the key of every entry is the hash key of the predicted
position of the particle the entry names. -/
theorem updateSpatialLookup_sorted_perm {F : Type} [LinearOrderedField F] [FloorRing F]
    (s : FluidParticleSystem F) (hlen : s.spacialLookup.length = s.particleCount) :
    (FluidParticleSystem.updateSpatialLookup s).spacialLookup.length = s.particleCount ∧
    (FluidParticleSystem.updateSpatialLookup s).spacialLookup.Pairwise
      (fun a b => a.spatialHashKey ≤ b.spatialHashKey) ∧
    ((FluidParticleSystem.updateSpatialLookup s).spacialLookup.map
      SpatialHashEntry.particleIndex).Perm (List.range s.particleCount) ∧
    ∀ e ∈ (FluidParticleSystem.updateSpatialLookup s).spacialLookup,
      e.spatialHashKey =
        FluidParticleSystem.hashKeyOf s (s.nextPositionData.getD e.particleIndex Vec2.zero) := by
  rw [FluidParticleSystem.updateSpatialLookup_eq s hlen]
  refine ⟨FluidParticleSystem.sortedLookup_length s, FluidParticleSystem.sortedLookup_sorted s,
    ?_, ?_⟩
  · have h := (FluidParticleSystem.sortedLookup_perm s).map SpatialHashEntry.particleIndex
    refine h.trans ?_
    rw [List.map_map]
    have hid : (SpatialHashEntry.particleIndex ∘ FluidParticleSystem.entryOf s) = id := by
      funext i; rfl
    rw [hid, List.map_id]
  · intro e he
    obtain ⟨i, _, rfl⟩ := (FluidParticleSystem.mem_sortedLookup s e).1 he
    rfl

/-! ## Neighbour scan -/

theorem mem_foldl_append {α β : Type} (f : α → List β) (x : β) :
    ∀ (l : List α) (init : List β),
      x ∈ l.foldl (fun acc a => acc ++ f a) init ↔ x ∈ init ∨ ∃ a ∈ l, x ∈ f a := by
  intro l
  induction l with
  | nil => intro init; simp
  | cons a l ih =>
    intro init
    rw [List.foldl_cons, ih]
    simp only [List.mem_append, List.mem_cons, exists_eq_or_imp]
    tauto

namespace FluidParticleSystem

variable {F : Type} [LinearOrderedField F] [FloorRing F]

/-- The forward scan reaches every position `m` up to which all keys match, and hands the
particle found there to the callback unless it is the query particle. -/
theorem mem_scanBucket {G : Type} (s : FluidParticleSystem G) (k i : Nat) :
    ∀ fuel j m, j ≤ m → m < j + fuel → (hm : m < s.spacialLookup.length) →
      (∀ t, j ≤ t → t ≤ m → (s.spacialLookup.getD t ⟨0, 0⟩).spatialHashKey = k) →
      (s.spacialLookup[m]).particleIndex ≠ i →
      (s.spacialLookup[m]).particleIndex ∈ scanBucket s k i fuel j := by
  intro fuel
  induction fuel with
  | zero => intro j m h1 h2; omega
  | succ fuel ih =>
    intro j m hjm hmf hm hkeys hne
    have hj := hkeys j le_rfl hjm
    simp only [scanBucket, hj, ne_eq, not_true_eq_false, if_false, List.mem_append]
    by_cases hjm2 : j = m
    · left
      subst hjm2
      rw [List.getD_eq_getElem _ _ hm, if_pos hne]
      exact List.mem_singleton_self _
    · right
      exact ih (j + 1) m (by omega) (by omega) hm
        (fun t ht1 ht2 => hkeys t (by omega) ht2) hne

theorem truncToInt_mono {a b : F} (h : a ≤ b) : truncToInt a ≤ truncToInt b := by
  unfold truncToInt
  split_ifs with ha hb hb
  · exact Int.floor_le_floor h
  · exact absurd (le_trans ha h) hb
  · have h1 : ⌈a⌉ ≤ 0 := Int.ceil_le.2 (by simpa using le_of_lt (not_le.1 ha))
    have h2 : 0 ≤ ⌊b⌋ := Int.floor_nonneg.2 hb
    omega
  · exact Int.ceil_le_ceil h

theorem truncToInt_add_one_le (a : F) : truncToInt (a + 1) ≤ truncToInt a + 1 := by
  unfold truncToInt
  split_ifs with ha1 ha ha
  · rw [Int.floor_add_one]
  · rw [Int.floor_add_one]
    have := Int.floor_le_ceil a
    omega
  · exact absurd (le_trans ha (le_add_of_nonneg_right zero_le_one)) ha1
  · rw [Int.ceil_add_one]

/-- Two coordinates less than one cell width apart fall into the same or adjacent cells. -/
theorem truncToInt_div_close {x y w : F} (hw : 0 < w) (h : |x - y| < w) :
    truncToInt (y / w) - truncToInt (x / w) ∈ ({-1, 0, 1} : Set Int) := by
  rw [abs_lt] at h
  have h1 : y / w ≤ x / w + 1 := by
    rw [div_add_one (ne_of_gt hw)]
    exact div_le_div_of_nonneg_right (by linarith) (le_of_lt hw)
  have h2 : x / w ≤ y / w + 1 := by
    rw [div_add_one (ne_of_gt hw)]
    exact div_le_div_of_nonneg_right (by linarith) (le_of_lt hw)
  have h3 := le_trans (truncToInt_mono h1) (truncToInt_add_one_le (x / w))
  have h4 := le_trans (truncToInt_mono h2) (truncToInt_add_one_le (y / w))
  simp only [Set.mem_insert_iff, Set.mem_singleton_iff]
  omega

theorem offset_mem_offset2D (dx dy : Int) (hx : dx ∈ ({-1, 0, 1} : Set Int))
    (hy : dy ∈ ({-1, 0, 1} : Set Int)) : (⟨dx, dy⟩ : Int2) ∈ offset2D := by
  simp only [Set.mem_insert_iff, Set.mem_singleton_iff] at hx hy
  rcases hx with rfl | rfl | rfl <;> rcases hy with rfl | rfl | rfl <;> decide

theorem positiveMod_lt (a : Int) (b : Nat) (hb : 0 < b) : positiveMod a b < b := by
  unfold positiveMod
  have h1 : 0 ≤ a % (b : Int) := Int.emod_nonneg _ (by omega)
  have h2 : a % (b : Int) < b := Int.emod_lt_of_pos _ (by omega)
  omega

/-- If the lookup list is sorted, position `m` holds particle `j ≠ i` under the key of a cell
of the 3×3 window of particle `i`, and the bucket-start table holds the first position of
that key, then the scan of particle `i` hands `j` to the callback. -/
theorem mem_foreachNeighbor_of_entry (s : FluidParticleSystem F) (i j m : Nat) (off : Int2)
    (hoff : off ∈ offset2D) (hm : m < s.spacialLookup.length) (hmN : m < s.particleCount)
    (hsorted : s.spacialLookup.Pairwise keyLE)
    (hpi : (s.spacialLookup[m]).particleIndex = j)
    (hkey : (s.spacialLookup[m]).spatialHashKey =
      positiveMod (hashGridCoord2D
        ⟨(pos2gridCoord (s.nextPositionData.getD i Vec2.zero) (truncToInt s.smoothRadius)).x + off.x,
         (pos2gridCoord (s.nextPositionData.getD i Vec2.zero) (truncToInt s.smoothRadius)).y + off.y⟩)
        s.particleCount)
    (hstart : s.spacialLookupEntry.getD (s.spacialLookup[m]).spatialHashKey 0 =
      firstIndexOfKey s.spacialLookup (s.spacialLookup[m]).spatialHashKey)
    (hij : j ≠ i) : j ∈ foreachNeighbor s i := by
  unfold foreachNeighbor
  rw [mem_foldl_append]
  right
  refine ⟨off, hoff, ?_⟩
  unfold scanCell
  simp only
  rw [← hkey, hstart, ← hpi]
  have hfirst := firstIndexOfKey_le s.spacialLookup m hm
  have hflt : firstIndexOfKey s.spacialLookup (s.spacialLookup[m]).spatialHashKey <
      s.spacialLookup.length := by omega
  have hfkey := key_at_firstIndexOfKey s.spacialLookup _ hflt
  rw [List.pairwise_iff_getElem] at hsorted
  refine mem_scanBucket s _ i _ _ m hfirst (by omega) hm ?_ (by rw [hpi]; exact hij)
  intro t ht1 ht2
  have htl : t < s.spacialLookup.length := by omega
  rw [List.getD_eq_getElem _ _ htl]
  have h1 : (s.spacialLookup[firstIndexOfKey s.spacialLookup
      (s.spacialLookup[m]).spatialHashKey]).spatialHashKey ≤ (s.spacialLookup[t]).spatialHashKey := by
    rcases Nat.eq_or_lt_of_le ht1 with h | h
    · simp only [h]; exact le_rfl
    · exact hsorted _ t hflt htl h
  have h2 : (s.spacialLookup[t]).spatialHashKey ≤ (s.spacialLookup[m]).spatialHashKey := by
    rcases Nat.eq_or_lt_of_le ht2 with h | h
    · simp only [h]; exact le_rfl
    · exact hsorted t m htl hm h
  omega

/-- After a rebuild, the bucket-start slot of every occupied key holds the first position of
that key in the sorted lookup list. -/
theorem bucketStart_after_rebuild (s : FluidParticleSystem F) (hsz : s.LookupSized) (m : Nat)
    (hm : m < (sortedLookup s).length) :
    (forLoop s.particleCount (bucketStep (sortedLookup s)) s.spacialLookupEntry).getD
        ((sortedLookup s)[m]).spatialHashKey 0 =
      firstIndexOfKey (sortedLookup s) ((sortedLookup s)[m]).spatialHashKey := by
  obtain ⟨_, hE, hN⟩ := hsz
  have hlen := sortedLookup_length s
  have hNpos : 0 < s.particleCount := by omega
  have hkeys : ∀ e ∈ sortedLookup s, e.spatialHashKey < s.particleCount := by
    intro e he
    obtain ⟨i, _, rfl⟩ := (mem_sortedLookup s e).1 he
    exact positiveMod_lt _ _ hNpos
  have hk : ∀ e ∈ sortedLookup s, e.spatialHashKey < 4294967295 := by
    intro e he
    have := hkeys e he
    omega
  have hspec := bucketLoop_getElem? (sortedLookup s) (sortedLookup_sorted s) hk
    s.spacialLookupEntry s.particleCount (by omega) ((sortedLookup s)[m]).spatialHashKey
  have hfirst := firstIndexOfKey_le (sortedLookup s) m hm
  have hkm := hkeys _ (List.getElem_mem hm)
  rw [if_pos ⟨by omega, by omega⟩] at hspec
  rw [List.getD_eq_getElem?_getD, hspec]
  rfl

theorem truncToInt_pos_of_one_le {r : F} (hr : 1 ≤ r) : 1 ≤ truncToInt r := by
  unfold truncToInt
  rw [if_pos (le_trans zero_le_one hr)]
  exact Int.le_floor.2 (by simpa using hr)

/-- A particle `j ≠ i` whose predicted position is less than one cell width away from that of
particle `i` on both axes is handed to the callback by the scan of particle `i` that follows
a rebuild. -/
theorem mem_foreachNeighbor_of_close (s : FluidParticleSystem F) (hsz : s.LookupSized)
    (i j : Nat) (hj : j < s.particleCount) (hij : j ≠ i) (hr : 1 ≤ s.smoothRadius)
    (hx : |(s.nextPositionData.getD i Vec2.zero).x - (s.nextPositionData.getD j Vec2.zero).x| <
      ((truncToInt s.smoothRadius : Int) : F))
    (hy : |(s.nextPositionData.getD i Vec2.zero).y - (s.nextPositionData.getD j Vec2.zero).y| <
      ((truncToInt s.smoothRadius : Int) : F)) :
    j ∈ foreachNeighbor (updateSpatialLookup s) i := by
  have hw : (0 : F) < ((truncToInt s.smoothRadius : Int) : F) := by
    have := truncToInt_pos_of_one_le hr
    exact_mod_cast (by omega : 0 < truncToInt s.smoothRadius)
  have hox := truncToInt_div_close hw hx
  have hoy := truncToInt_div_close hw hy
  have hoff := offset_mem_offset2D _ _ hox hoy
  have hmem : entryOf s j ∈ sortedLookup s := (mem_sortedLookup s _).2 ⟨j, hj, rfl⟩
  obtain ⟨m, hm, hmj⟩ := List.getElem_of_mem hmem
  have hstart := bucketStart_after_rebuild s hsz m hm
  rw [updateSpatialLookup_eq s hsz.1]
  refine mem_foreachNeighbor_of_entry _ i j m _ hoff hm ?_ (sortedLookup_sorted s) ?_ ?_ hstart hij
  · rw [sortedLookup_length] at hm
    exact hm
  · show ((sortedLookup s)[m]).particleIndex = j
    rw [hmj]
    rfl
  · show ((sortedLookup s)[m]).spatialHashKey = _
    rw [hmj]
    simp only [entryOf, hashKeyOf, pos2gridCoord]
    congr 3 <;> ring

end FluidParticleSystem

/-- Claim C2 (amended): right after an index rebuild, for every `smoothRadius ≥ 1` and every
particle `i`, every particle `j ≠ i` whose predicted position lies at Euclidean distance less
than the cell width (`smoothRadius` truncated to an integer, which is `smoothRadius` itself
when that is a whole number) from the predicted position of `i` is passed to the callback by
`foreachNeighbor(i)`.  The distance condition is stated on the squares. -/
theorem foreachNeighbor_covers_cell_width_ball {F : Type} [LinearOrderedField F] [FloorRing F]
    (s : FluidParticleSystem F) (hsz : s.LookupSized)
    (i j : Nat) (hj : j < s.particleCount) (hij : j ≠ i) (hr : 1 ≤ s.smoothRadius)
    (hd : ((s.nextPositionData.getD j Vec2.zero).x - (s.nextPositionData.getD i Vec2.zero).x) ^ 2 +
        ((s.nextPositionData.getD j Vec2.zero).y - (s.nextPositionData.getD i Vec2.zero).y) ^ 2 <
      ((FluidParticleSystem.truncToInt s.smoothRadius : Int) : F) ^ 2) :
    j ∈ FluidParticleSystem.foreachNeighbor (FluidParticleSystem.updateSpatialLookup s) i := by
  have hw : (0 : F) ≤ ((FluidParticleSystem.truncToInt s.smoothRadius : Int) : F) := by
    have := FluidParticleSystem.truncToInt_pos_of_one_le hr
    exact_mod_cast (by omega : 0 ≤ FluidParticleSystem.truncToInt s.smoothRadius)
  refine FluidParticleSystem.mem_foreachNeighbor_of_close s hsz i j hj hij hr ?_ ?_
  · rw [abs_sub_comm]
    refine abs_lt_of_sq_lt_sq ?_ hw
    nlinarith [sq_nonneg ((s.nextPositionData.getD j Vec2.zero).y -
      (s.nextPositionData.getD i Vec2.zero).y)]
  · rw [abs_sub_comm]
    refine abs_lt_of_sq_lt_sq ?_ hw
    nlinarith [sq_nonneg ((s.nextPositionData.getD j Vec2.zero).x -
      (s.nextPositionData.getD i Vec2.zero).x)]

/-- The C1 statement at `pairSystem`. -/
theorem updateSpatialLookup_sorted_perm_witness :
    pairSystem.spacialLookup.length = pairSystem.particleCount ∧
    ((FluidParticleSystem.updateSpatialLookup pairSystem).spacialLookup.length =
        pairSystem.particleCount ∧
      (FluidParticleSystem.updateSpatialLookup pairSystem).spacialLookup.Pairwise
        (fun a b => a.spatialHashKey ≤ b.spatialHashKey) ∧
      ((FluidParticleSystem.updateSpatialLookup pairSystem).spacialLookup.map
        SpatialHashEntry.particleIndex).Perm (List.range pairSystem.particleCount) ∧
      ∀ e ∈ (FluidParticleSystem.updateSpatialLookup pairSystem).spacialLookup,
        e.spatialHashKey =
          FluidParticleSystem.hashKeyOf pairSystem
            (pairSystem.nextPositionData.getD e.particleIndex Vec2.zero)) :=
  ⟨rfl, updateSpatialLookup_sorted_perm pairSystem rfl⟩

/-! ### A true neighbour outside the 3×3 window (`smoothRadius = 3/2`) -/

theorem sparseSystem_lookupSized : sparseSystem.LookupSized := ⟨rfl, rfl, by decide⟩

theorem pairSystem_lookupSized : pairSystem.LookupSized := ⟨rfl, rfl, by decide⟩

theorem sparseSystem_entries :
    (List.range 6).map (FluidParticleSystem.entryOf sparseSystem) =
      [⟨0, 0⟩, ⟨1, 4⟩, ⟨2, 0⟩, ⟨3, 0⟩, ⟨4, 0⟩, ⟨5, 0⟩] := by
  simp [List.range, List.range.loop, FluidParticleSystem.entryOf, FluidParticleSystem.hashKeyOf,
    sparseSystem, mkSystem, FluidParticleSystem.pos2gridCoord]
  norm_num [FluidParticleSystem.truncToInt]
  decide

theorem sparseSystem_sortedLookup :
    FluidParticleSystem.sortedLookup sparseSystem =
      [⟨0, 0⟩, ⟨2, 0⟩, ⟨3, 0⟩, ⟨4, 0⟩, ⟨5, 0⟩, ⟨1, 4⟩] := by
  have h : sparseSystem.particleCount = 6 := rfl
  unfold FluidParticleSystem.sortedLookup
  rw [h, sparseSystem_entries]
  decide

theorem sparseSystem_gridPos :
    FluidParticleSystem.pos2gridCoord
        ((FluidParticleSystem.updateSpatialLookup sparseSystem).nextPositionData.getD 0 Vec2.zero)
        (FluidParticleSystem.truncToInt
          (FluidParticleSystem.updateSpatialLookup sparseSystem).smoothRadius) = ⟨0, 0⟩ := by
  rw [FluidParticleSystem.updateSpatialLookup_eq _ rfl]
  simp [sparseSystem, mkSystem, FluidParticleSystem.pos2gridCoord]
  norm_num [FluidParticleSystem.truncToInt]

/-- Claim C2 fails as stated: with `smoothRadius = 3/2` (cell width 1), particle 1 at
`(11/5, 0)` is at distance `13/10 < 3/2` from particle 0 at `(9/10, 0)`, but lies two cells
away and under a key that no cell of the 3×3 window of particle 0 has, so the scan of
particle 0 after the rebuild does not reach it. -/
theorem foreachNeighbor_misses_neighbour_two_cells_away :
    sparseSystem.LookupSized ∧ 0 < sparseSystem.smoothRadius ∧ (1 : Nat) ≠ 0 ∧
    ((sparseSystem.nextPositionData.getD 1 Vec2.zero).x -
          (sparseSystem.nextPositionData.getD 0 Vec2.zero).x) ^ 2 +
        ((sparseSystem.nextPositionData.getD 1 Vec2.zero).y -
          (sparseSystem.nextPositionData.getD 0 Vec2.zero).y) ^ 2 <
      sparseSystem.smoothRadius ^ 2 ∧
    1 ∉ FluidParticleSystem.foreachNeighbor
      (FluidParticleSystem.updateSpatialLookup sparseSystem) 0 := by
  refine ⟨sparseSystem_lookupSized, ?_, by decide, ?_, ?_⟩
  · norm_num [sparseSystem, mkSystem]
  · norm_num [sparseSystem, mkSystem]
  · unfold FluidParticleSystem.foreachNeighbor
    simp only [sparseSystem_gridPos]
    rw [FluidParticleSystem.updateSpatialLookup_eq _ rfl, sparseSystem_sortedLookup]
    decide

/-- The amended C2 statement at `pairSystem`: particle 1 at distance 1 from particle 0, with
`smoothRadius = 2`. -/
theorem foreachNeighbor_covers_cell_width_ball_witness :
    pairSystem.LookupSized ∧ 1 < pairSystem.particleCount ∧ (1 : Nat) ≠ 0 ∧
    1 ≤ pairSystem.smoothRadius ∧
    ((pairSystem.nextPositionData.getD 1 Vec2.zero).x -
          (pairSystem.nextPositionData.getD 0 Vec2.zero).x) ^ 2 +
        ((pairSystem.nextPositionData.getD 1 Vec2.zero).y -
          (pairSystem.nextPositionData.getD 0 Vec2.zero).y) ^ 2 <
      ((FluidParticleSystem.truncToInt pairSystem.smoothRadius : Int) : ℚ) ^ 2 ∧
    1 ∈ FluidParticleSystem.foreachNeighbor
      (FluidParticleSystem.updateSpatialLookup pairSystem) 0 :=
  have h1 : (1 : Nat) < pairSystem.particleCount := by decide
  have h2 : (1 : Nat) ≠ 0 := by decide
  have h3 : 1 ≤ pairSystem.smoothRadius := by norm_num [pairSystem, mkSystem]
  have h4 : ((pairSystem.nextPositionData.getD 1 Vec2.zero).x -
          (pairSystem.nextPositionData.getD 0 Vec2.zero).x) ^ 2 +
        ((pairSystem.nextPositionData.getD 1 Vec2.zero).y -
          (pairSystem.nextPositionData.getD 0 Vec2.zero).y) ^ 2 <
      ((FluidParticleSystem.truncToInt pairSystem.smoothRadius : Int) : ℚ) ^ 2 := by
    norm_num [pairSystem, mkSystem, FluidParticleSystem.truncToInt]
  ⟨pairSystem_lookupSized, h1, h2, h3, h4,
    foreachNeighbor_covers_cell_width_ball pairSystem pairSystem_lookupSized 0 1 h1 h2 h3 h4⟩

/-! ## Boundary resolution -/

/-- A loop whose iteration `i` leaves the view of every other index alone: indices not yet
reached are untouched, and an index already passed shows what its own iteration wrote. -/
theorem forLoop_pointwise {σ α : Type} (view : σ → Nat → α) (body : Nat → σ → σ)
    (hother : ∀ i t k, k ≠ i → view (body i t) k = view t k) (s : σ) :
    ∀ n k, (n ≤ k → view (forLoop n body s) k = view s k) ∧
      (k < n → view (forLoop n body s) k = view (body k (forLoop k body s)) k) := by
  intro n
  induction n with
  | zero => intro k; exact ⟨fun _ => rfl, fun h => absurd h (Nat.not_lt_zero k)⟩
  | succ n ih =>
    intro k
    rw [forLoop_succ]
    constructor
    · intro h
      rw [hother n _ k (by omega)]
      exact (ih k).1 (by omega)
    · intro h
      by_cases hk : k = n
      · rw [hk]
      · rw [hother n _ k hk]
        exact (ih k).2 (by omega)

namespace FluidParticleSystem

variable {F : Type} [LinearOrderedField F]

theorem boundaryBody_other (i : Nat) (t : FluidParticleSystem F) (k : Nat) (hk : k ≠ i) :
    boundaryView (boundaryY i (boundaryX i t)) k = boundaryView t k := by
  have hki : ¬ i = k := fun h => hk h.symm
  unfold boundaryY boundaryX boundaryView positionAt velocityAt
  simp only
  split_ifs <;>
    simp [List.getD_eq_getElem?_getD, List.getElem?_set, hki]

theorem boundaryX_self (i : Nat) (t : FluidParticleSystem F)
    (hp : i < t.positionData.length) (hv : i < t.velocityData.length) :
    (boundaryX i t).positionAt i =
        ⟨if (t.positionAt i).x < 0 ∨ (t.positionAt i).x > (t.windowWidth : F)
            then stdClamp (t.positionAt i).x 0 (t.windowWidth : F) else (t.positionAt i).x,
         (t.positionAt i).y⟩ ∧
      (boundaryX i t).velocityAt i =
        ⟨if (t.positionAt i).x < 0 ∨ (t.positionAt i).x > (t.windowWidth : F)
            then (t.velocityAt i).x * (-t.collisionDamping) else (t.velocityAt i).x,
         (t.velocityAt i).y⟩ := by
  unfold boundaryX positionAt velocityAt
  simp only
  split_ifs <;> simp [List.getD_eq_getElem?_getD, List.getElem?_set, hp, hv]

theorem boundaryY_self (i : Nat) (t : FluidParticleSystem F)
    (hp : i < t.positionData.length) (hv : i < t.velocityData.length) :
    (boundaryY i t).positionAt i =
        ⟨(t.positionAt i).x,
         if (t.positionAt i).y < 0 ∨ (t.positionAt i).y > (t.windowHeight : F)
            then stdClamp (t.positionAt i).y 0 (t.windowHeight : F) else (t.positionAt i).y⟩ ∧
      (boundaryY i t).velocityAt i =
        ⟨(t.velocityAt i).x,
         if (t.positionAt i).y < 0 ∨ (t.positionAt i).y > (t.windowHeight : F)
            then (t.velocityAt i).y * (-t.collisionDamping) else (t.velocityAt i).y⟩ := by
  unfold boundaryY positionAt velocityAt
  simp only
  split_ifs <;> simp [List.getD_eq_getElem?_getD, List.getElem?_set, hp, hv]

theorem boundaryX_frame (i : Nat) (t : FluidParticleSystem F) :
    (boundaryX i t).collisionDamping = t.collisionDamping ∧
    (boundaryX i t).windowWidth = t.windowWidth ∧
    (boundaryX i t).windowHeight = t.windowHeight ∧
    (boundaryX i t).positionData.length = t.positionData.length ∧
    (boundaryX i t).velocityData.length = t.velocityData.length := by
  unfold boundaryX
  simp only
  split_ifs <;> simp

/-- One iteration of the loop of `handleBoundaryCollision`, seen at its own particle. -/
theorem boundaryBody_self (i : Nat) (t : FluidParticleSystem F)
    (hp : i < t.positionData.length) (hv : i < t.velocityData.length) :
    (boundaryY i (boundaryX i t)).positionAt i =
        ⟨if (t.positionAt i).x < 0 ∨ (t.positionAt i).x > (t.windowWidth : F)
            then stdClamp (t.positionAt i).x 0 (t.windowWidth : F) else (t.positionAt i).x,
         if (t.positionAt i).y < 0 ∨ (t.positionAt i).y > (t.windowHeight : F)
            then stdClamp (t.positionAt i).y 0 (t.windowHeight : F) else (t.positionAt i).y⟩ ∧
      (boundaryY i (boundaryX i t)).velocityAt i =
        ⟨if (t.positionAt i).x < 0 ∨ (t.positionAt i).x > (t.windowWidth : F)
            then (t.velocityAt i).x * (-t.collisionDamping) else (t.velocityAt i).x,
         if (t.positionAt i).y < 0 ∨ (t.positionAt i).y > (t.windowHeight : F)
            then (t.velocityAt i).y * (-t.collisionDamping) else (t.velocityAt i).y⟩ := by
  obtain ⟨hd, _, hh, hlp, hlv⟩ := boundaryX_frame i t
  obtain ⟨hxp, hxv⟩ := boundaryX_self i t hp hv
  obtain ⟨hyp, hyv⟩ := boundaryY_self i (boundaryX i t) (by omega) (by omega)
  rw [hyp, hyv, hxp, hxv, hd, hh]
  exact ⟨rfl, rfl⟩

/-- The position and velocity of particle `i` after `handleBoundaryCollision`, in closed
form. -/
theorem handleBoundaryCollision_at (s : FluidParticleSystem F) (i : Nat)
    (hi : i < s.particleCount) (hp : i < s.positionData.length)
    (hv : i < s.velocityData.length) :
    (handleBoundaryCollision s).positionAt i =
        ⟨if (s.positionAt i).x < 0 ∨ (s.positionAt i).x > (s.windowWidth : F)
            then stdClamp (s.positionAt i).x 0 (s.windowWidth : F) else (s.positionAt i).x,
         if (s.positionAt i).y < 0 ∨ (s.positionAt i).y > (s.windowHeight : F)
            then stdClamp (s.positionAt i).y 0 (s.windowHeight : F) else (s.positionAt i).y⟩ ∧
      (handleBoundaryCollision s).velocityAt i =
        ⟨if (s.positionAt i).x < 0 ∨ (s.positionAt i).x > (s.windowWidth : F)
            then (s.velocityAt i).x * (-s.collisionDamping) else (s.velocityAt i).x,
         if (s.positionAt i).y < 0 ∨ (s.positionAt i).y > (s.windowHeight : F)
            then (s.velocityAt i).y * (-s.collisionDamping) else (s.velocityAt i).y⟩ := by
  have hpw := forLoop_pointwise boundaryView (fun i st => boundaryY i (boundaryX i st))
    boundaryBody_other s
  have h1 := (hpw s.particleCount i).2 hi
  have h2 := (hpw i i).1 le_rfl
  simp only [boundaryView, Prod.mk.injEq] at h1 h2
  obtain ⟨_, _, _, _, _, h1p, h1v⟩ := h1
  obtain ⟨h2d, h2w, h2h, h2lp, h2lv, h2p, h2v⟩ := h2
  obtain ⟨hbp, hbv⟩ := boundaryBody_self i
    (forLoop i (fun i st => boundaryY i (boundaryX i st)) s) (by omega) (by omega)
  unfold handleBoundaryCollision
  rw [h1p, h1v, hbp, hbv, h2d, h2w, h2h, h2p, h2v]
  exact ⟨rfl, rfl⟩

end FluidParticleSystem

/-- Claim C5: for every particle `i` and each axis independently, `handleBoundaryCollision`
sets a position component below `0` to `0` and one above the extent to the extent, and in
both cases multiplies the velocity component of that axis by `-collisionDamping`; a position
component inside `[0, extent]` and its velocity component are unchanged.  Afterwards the
position lies in `[0, width] × [0, height]`. -/
theorem handleBoundaryCollision_clamps_and_reflects {F : Type} [LinearOrderedField F]
    (s : FluidParticleSystem F) (i : Nat) (hi : i < s.particleCount)
    (hp : s.positionData.length = s.particleCount)
    (hv : s.velocityData.length = s.particleCount) :
    ((s.positionAt i).x < 0 →
      ((FluidParticleSystem.handleBoundaryCollision s).positionAt i).x = 0 ∧
      ((FluidParticleSystem.handleBoundaryCollision s).velocityAt i).x =
        (s.velocityAt i).x * (-s.collisionDamping)) ∧
    ((s.windowWidth : F) < (s.positionAt i).x →
      ((FluidParticleSystem.handleBoundaryCollision s).positionAt i).x = (s.windowWidth : F) ∧
      ((FluidParticleSystem.handleBoundaryCollision s).velocityAt i).x =
        (s.velocityAt i).x * (-s.collisionDamping)) ∧
    (0 ≤ (s.positionAt i).x → (s.positionAt i).x ≤ (s.windowWidth : F) →
      ((FluidParticleSystem.handleBoundaryCollision s).positionAt i).x = (s.positionAt i).x ∧
      ((FluidParticleSystem.handleBoundaryCollision s).velocityAt i).x = (s.velocityAt i).x) ∧
    ((s.positionAt i).y < 0 →
      ((FluidParticleSystem.handleBoundaryCollision s).positionAt i).y = 0 ∧
      ((FluidParticleSystem.handleBoundaryCollision s).velocityAt i).y =
        (s.velocityAt i).y * (-s.collisionDamping)) ∧
    ((s.windowHeight : F) < (s.positionAt i).y →
      ((FluidParticleSystem.handleBoundaryCollision s).positionAt i).y = (s.windowHeight : F) ∧
      ((FluidParticleSystem.handleBoundaryCollision s).velocityAt i).y =
        (s.velocityAt i).y * (-s.collisionDamping)) ∧
    (0 ≤ (s.positionAt i).y → (s.positionAt i).y ≤ (s.windowHeight : F) →
      ((FluidParticleSystem.handleBoundaryCollision s).positionAt i).y = (s.positionAt i).y ∧
      ((FluidParticleSystem.handleBoundaryCollision s).velocityAt i).y = (s.velocityAt i).y) ∧
    (0 ≤ ((FluidParticleSystem.handleBoundaryCollision s).positionAt i).x ∧
      ((FluidParticleSystem.handleBoundaryCollision s).positionAt i).x ≤ (s.windowWidth : F) ∧
      0 ≤ ((FluidParticleSystem.handleBoundaryCollision s).positionAt i).y ∧
      ((FluidParticleSystem.handleBoundaryCollision s).positionAt i).y ≤
        (s.windowHeight : F)) := by
  obtain ⟨hpos, hvel⟩ :=
    FluidParticleSystem.handleBoundaryCollision_at s i hi (by omega) (by omega)
  have hW : (0 : F) ≤ (s.windowWidth : F) := Nat.cast_nonneg _
  have hH : (0 : F) ≤ (s.windowHeight : F) := Nat.cast_nonneg _
  rw [hpos, hvel]
  simp only [stdClamp]
  refine ⟨?_, ?_, ?_, ?_, ?_, ?_, ?_, ?_, ?_, ?_⟩
  · intro h
    rw [if_pos (Or.inl h), if_pos (Or.inl h), if_pos h]
    exact ⟨rfl, rfl⟩
  · intro h
    have h0 : ¬ (s.positionAt i).x < 0 := not_lt.2 (le_trans hW (le_of_lt h))
    rw [if_pos (Or.inr h), if_pos (Or.inr h), if_neg h0, if_pos h]
    exact ⟨rfl, rfl⟩
  · intro h0 h1
    have hc : ¬ ((s.positionAt i).x < 0 ∨ (s.positionAt i).x > (s.windowWidth : F)) := by
      rintro (h | h)
      · exact absurd h (not_lt.2 h0)
      · exact absurd h (not_lt.2 h1)
    rw [if_neg hc, if_neg hc]
    exact ⟨rfl, rfl⟩
  · intro h
    rw [if_pos (Or.inl h), if_pos (Or.inl h), if_pos h]
    exact ⟨rfl, rfl⟩
  · intro h
    have h0 : ¬ (s.positionAt i).y < 0 := not_lt.2 (le_trans hH (le_of_lt h))
    rw [if_pos (Or.inr h), if_pos (Or.inr h), if_neg h0, if_pos h]
    exact ⟨rfl, rfl⟩
  · intro h0 h1
    have hc : ¬ ((s.positionAt i).y < 0 ∨ (s.positionAt i).y > (s.windowHeight : F)) := by
      rintro (h | h)
      · exact absurd h (not_lt.2 h0)
      · exact absurd h (not_lt.2 h1)
    rw [if_neg hc, if_neg hc]
    exact ⟨rfl, rfl⟩
  · dsimp only
    split_ifs <;> simp_all
  · dsimp only
    split_ifs <;> simp_all
  · dsimp only
    split_ifs <;> simp_all
  · dsimp only
    split_ifs <;> simp_all

/-- The C5 statement at the scenario of the specification: position `(-5, 10)`, velocity
`(-3, 0)`, damping `1/2`, width `100` give `position.x = 0` and `velocity.x = 3/2`. -/
theorem handleBoundaryCollision_clamps_and_reflects_witness :
    0 < outsideSystem.particleCount ∧
    outsideSystem.positionData.length = outsideSystem.particleCount ∧
    outsideSystem.velocityData.length = outsideSystem.particleCount ∧
    outsideSystem.positionAt 0 = ⟨-5, 10⟩ ∧ outsideSystem.velocityAt 0 = ⟨-3, 0⟩ ∧
    ((FluidParticleSystem.handleBoundaryCollision outsideSystem).positionAt 0).x = 0 ∧
    ((FluidParticleSystem.handleBoundaryCollision outsideSystem).velocityAt 0).x = 3 / 2 :=
  have hneg : (outsideSystem.positionAt 0).x < 0 := by
    norm_num [outsideSystem, mkSystem, FluidParticleSystem.positionAt]
  have h := (handleBoundaryCollision_clamps_and_reflects outsideSystem 0 (by decide) rfl rfl).1 hneg
  ⟨by decide, rfl, rfl, rfl, rfl, h.1, by
    rw [h.2]
    norm_num [outsideSystem, mkSystem, FluidParticleSystem.velocityAt]⟩

/-! ## Mass is never written -/

namespace FluidParticleSystem

variable {F : Type} [LinearOrderedField F] [FloorRing F]

theorem updateSpatialLookup_mass (s : FluidParticleSystem F) :
    (updateSpatialLookup s).massData = s.massData ∧
      (updateSpatialLookup s).particleCount = s.particleCount := by
  unfold updateSpatialLookup
  simp only [fillLoop_eq, bucketLoop_eq]
  exact ⟨trivial, trivial⟩

theorem boundaryBody_mass {G : Type} [LinearOrderedField G] (i : Nat)
    (t : FluidParticleSystem G) :
    (boundaryY i (boundaryX i t)).massData = t.massData ∧
      (boundaryY i (boundaryX i t)).particleCount = t.particleCount := by
  unfold boundaryY boundaryX
  simp only
  split_ifs <;> exact ⟨rfl, rfl⟩

theorem updateParticleData_mass (env : Env F) (deltaTime : F) (s : FluidParticleSystem F) :
    (updateParticleData env deltaTime s).massData = s.massData ∧
      (updateParticleData env deltaTime s).particleCount = s.particleCount := by
  have key : ∀ (body : Nat → FluidParticleSystem F → FluidParticleSystem F),
      (∀ i t, (body i t).massData = t.massData ∧ (body i t).particleCount = t.particleCount) →
      ∀ n t, (forLoop n body t).massData = t.massData ∧
        (forLoop n body t).particleCount = t.particleCount := by
    intro body hbody n t
    exact ⟨forLoop_proj_eq (fun u => u.massData) body (fun i u => (hbody i u).1) n t,
      forLoop_proj_eq (fun u => u.particleCount) body (fun i u => (hbody i u).2) n t⟩
  have h1 := key (predictBody env) (fun _ _ => ⟨rfl, rfl⟩)
  have h3 := key (densityBody env) (fun _ _ => ⟨rfl, rfl⟩)
  have h4 := key (velocityBody env deltaTime) (fun _ _ => ⟨rfl, rfl⟩)
  have h5 := key (positionBody deltaTime) (fun _ _ => ⟨rfl, rfl⟩)
  have h6 := key (fun i st => boundaryY i (boundaryX i st)) boundaryBody_mass
  unfold updateParticleData handleBoundaryCollision
  simp only [h1, h3, h4, h5, h6, updateSpatialLookup_mass]
  exact ⟨trivial, trivial⟩

theorem applyOp_mass (env : Env F) (op : Op F) (s : FluidParticleSystem F) :
    (applyOp env s op).massData = s.massData ∧
      (applyOp env s op).particleCount = s.particleCount := by
  cases op with
  | step deltaTime width height => exact updateParticleData_mass env deltaTime _
  | reload config => exact ⟨rfl, rfl⟩

theorem runOps_mass (env : Env F) (ops : List (Op F)) :
    ∀ s : FluidParticleSystem F,
      (runOps env ops s).massData = s.massData ∧
        (runOps env ops s).particleCount = s.particleCount := by
  induction ops with
  | nil => intro s; exact ⟨rfl, rfl⟩
  | cons op ops ih =>
    intro s
    have h1 := applyOp_mass env op s
    have h2 := ih (applyOp env s op)
    unfold runOps at h2 ⊢
    rw [List.foldl_cons]
    exact ⟨h2.1.trans h1.1, h2.2.trans h1.2⟩

end FluidParticleSystem

/-- Claim C9: for every system whose mass array has `particleCount` elements and every finite
sequence of simulation steps (any `deltaTime`, any viewport extent) and parameter reloads
(any configuration values), the mass array after the sequence is the mass array before it
element for element, `particleCount` is the same, and the mass array still has
`particleCount` elements. -/
theorem mass_unchanged_by_steps_and_reloads {F : Type} [LinearOrderedField F] [FloorRing F]
    (env : Env F) (ops : List (Op F)) (s : FluidParticleSystem F)
    (hinit : s.massData.length = s.particleCount) :
    (runOps env ops s).massData = s.massData ∧
    (∀ i, (runOps env ops s).massData.getD i 0 = s.massData.getD i 0) ∧
    (runOps env ops s).particleCount = s.particleCount ∧
    (runOps env ops s).massData.length = (runOps env ops s).particleCount := by
  obtain ⟨hm, hn⟩ := FluidParticleSystem.runOps_mass env ops s
  refine ⟨hm, fun i => by rw [hm], hn, ?_⟩
  rw [hm, hn, hinit]

/-- The C9 statement at `pairSystem` and `sampleOps`. -/
theorem mass_unchanged_by_steps_and_reloads_witness :
    pairSystem.massData.length = pairSystem.particleCount ∧
    (runOps ratEnv sampleOps pairSystem).massData = pairSystem.massData ∧
    (∀ i, (runOps ratEnv sampleOps pairSystem).massData.getD i 0 =
      pairSystem.massData.getD i 0) ∧
    (runOps ratEnv sampleOps pairSystem).particleCount = pairSystem.particleCount ∧
    (runOps ratEnv sampleOps pairSystem).massData.length =
      (runOps ratEnv sampleOps pairSystem).particleCount :=
  ⟨rfl, mass_unchanged_by_steps_and_reloads ratEnv sampleOps pairSystem rfl⟩

/-! ## What the neighbour scan can visit -/

namespace FluidParticleSystem

variable {F : Type} [LinearOrderedField F] [FloorRing F]

/-- Everything the forward scan hands to the callback differs from the query particle and
is the particle index of a scanned lookup entry with the scanned key. -/
theorem of_mem_scanBucket {G : Type} (s : FluidParticleSystem G) (k i x : Nat) :
    ∀ fuel j, x ∈ scanBucket s k i fuel j →
      x ≠ i ∧ ∃ t, j ≤ t ∧ t < j + fuel ∧
        (s.spacialLookup.getD t ⟨0, 0⟩).particleIndex = x ∧
        (s.spacialLookup.getD t ⟨0, 0⟩).spatialHashKey = k := by
  intro fuel
  induction fuel with
  | zero => intro j h; simp [scanBucket] at h
  | succ fuel ih =>
    intro j h
    simp only [scanBucket] at h
    split_ifs at h with hk hp
    · simp at h
    · rw [List.mem_append] at h
      rcases h with h | h
      · rw [List.mem_singleton] at h
        subst h
        exact ⟨hp, j, le_rfl, by omega, rfl, by simpa using hk⟩
      · obtain ⟨hx, t, ht1, ht2, ht3⟩ := ih (j + 1) h
        exact ⟨hx, t, by omega, by omega, ht3⟩
    · rw [List.nil_append] at h
      obtain ⟨hx, t, ht1, ht2, ht3⟩ := ih (j + 1) h
      exact ⟨hx, t, by omega, by omega, ht3⟩

/-- Everything `foreachNeighbor` hands to the callback differs from the query particle and
is the particle index of a lookup entry at a position below `particleCount`. -/
theorem of_mem_foreachNeighbor (s : FluidParticleSystem F) (i x : Nat)
    (h : x ∈ foreachNeighbor s i) :
    x ≠ i ∧ ∃ t, t < s.particleCount ∧ (s.spacialLookup.getD t ⟨0, 0⟩).particleIndex = x := by
  unfold foreachNeighbor at h
  rw [mem_foldl_append] at h
  rcases h with h | ⟨off, _, h⟩
  · simp at h
  · unfold scanCell at h
    obtain ⟨hx, t, ht1, ht2, ht3, _⟩ := of_mem_scanBucket s _ i x _ _ h
    exact ⟨hx, t, by omega, ht3⟩

/-- After a rebuild, `foreachNeighbor` hands only particle indices below `particleCount` and
different from the query particle to the callback. -/
theorem of_mem_foreachNeighbor_rebuilt (s : FluidParticleSystem F)
    (hlen : s.spacialLookup.length = s.particleCount) (i x : Nat)
    (h : x ∈ foreachNeighbor (updateSpatialLookup s) i) : x ≠ i ∧ x < s.particleCount := by
  obtain ⟨hx, t, ht, htx⟩ := of_mem_foreachNeighbor _ i x h
  refine ⟨hx, ?_⟩
  rw [updateSpatialLookup_eq s hlen] at ht htx
  simp only at ht htx
  have htl : t < (sortedLookup s).length := by rw [sortedLookup_length]; exact ht
  rw [List.getD_eq_getElem _ _ htl] at htx
  obtain ⟨i', hi', he⟩ := (mem_sortedLookup s _).1 (List.getElem_mem htl)
  rw [he] at htx
  rw [← htx]
  exact hi'

/-- A single particle has no neighbours to visit. -/
theorem foreachNeighbor_single (s : FluidParticleSystem F)
    (hlen : s.spacialLookup.length = s.particleCount) (hN : s.particleCount = 1) :
    foreachNeighbor (updateSpatialLookup s) 0 = [] := by
  rw [List.eq_nil_iff_forall_not_mem]
  intro x hx
  obtain ⟨h1, h2⟩ := of_mem_foreachNeighbor_rebuilt s hlen 0 x hx
  omega

end FluidParticleSystem

/-! ## A single particle at rest -/

namespace FluidParticleSystem

variable {F : Type} [LinearOrderedField F] [FloorRing F]

theorem forLoop_one {σ : Type} (body : Nat → σ → σ) (s : σ) : forLoop 1 body s = body 0 s := rfl

theorem scanBucket_congr {G : Type} (s t : FluidParticleSystem G)
    (h : s.spacialLookup = t.spacialLookup) (k i : Nat) :
    ∀ fuel j, scanBucket s k i fuel j = scanBucket t k i fuel j := by
  intro fuel
  induction fuel with
  | zero => intro j; rfl
  | succ fuel ih => intro j; simp only [scanBucket, h, ih]

/-- The scan reads only the predicted positions, the radius, the particle count and the two
lookup tables. -/
theorem foreachNeighbor_congr (s t : FluidParticleSystem F)
    (h1 : s.nextPositionData = t.nextPositionData) (h2 : s.smoothRadius = t.smoothRadius)
    (h3 : s.particleCount = t.particleCount) (h4 : s.spacialLookup = t.spacialLookup)
    (h5 : s.spacialLookupEntry = t.spacialLookupEntry) (i : Nat) :
    foreachNeighbor s i = foreachNeighbor t i := by
  unfold foreachNeighbor scanCell
  simp only [h1, h2, h3, h5, scanBucket_congr s t h4]

theorem foreachNeighbor_densityBody (env : Env F) (k : Nat) (t : FluidParticleSystem F)
    (i : Nat) : foreachNeighbor (densityBody env k t) i = foreachNeighbor t i :=
  foreachNeighbor_congr (densityBody env k t) t rfl rfl rfl rfl rfl i

theorem updateParticleData_single (env : Env F) (deltaTime : F) (s : FluidParticleSystem F)
    (hN : s.particleCount = 1) :
    updateParticleData env deltaTime s =
      handleBoundaryCollision (positionBody deltaTime 0 (velocityBody env deltaTime 0
        (densityBody env 0 (updateSpatialLookup (predictBody env 0 s))))) := by
  have hpc2 : (updateSpatialLookup (predictBody env 0 s)).particleCount = 1 := by
    rw [(updateSpatialLookup_mass _).2]; exact hN
  have hpc3 : (densityBody env 0 (updateSpatialLookup (predictBody env 0 s))).particleCount = 1 :=
    hpc2
  have hpc4 : (velocityBody env deltaTime 0
      (densityBody env 0 (updateSpatialLookup (predictBody env 0 s)))).particleCount = 1 := hpc2
  unfold updateParticleData
  simp only [hN, forLoop_one, hpc2, hpc3, hpc4]

theorem single_before_boundary (env : Env F) (deltaTime : F) (s : FluidParticleSystem F)
    (hN : s.particleCount = 1) (hlook : s.spacialLookup.length = 1)
    (hpos : s.positionData.length = 1) (hvel : s.velocityData.length = 1)
    (hv : s.velocityAt 0 = Vec2.zero) (hg : s.gravityAccValue = 0) :
    boundaryView (positionBody deltaTime 0 (velocityBody env deltaTime 0
        (densityBody env 0 (updateSpatialLookup (predictBody env 0 s))))) 0 =
      boundaryView s 0 := by
  have hl1 : (predictBody env 0 s).spacialLookup.length = (predictBody env 0 s).particleCount := by
    show s.spacialLookup.length = s.particleCount
    rw [hlook, hN]
  have hN1 : (predictBody env 0 s).particleCount = 1 := hN
  have hfn := foreachNeighbor_single _ hl1 hN1
  have hfn3 : foreachNeighbor (densityBody env 0 (updateSpatialLookup (predictBody env 0 s))) 0 = [] := by
    rw [foreachNeighbor_densityBody]
    exact hfn
  have hforce : calculatePressureForce env
      (densityBody env 0 (updateSpatialLookup (predictBody env 0 s))) 0 =
        (Vec2.zero, (updateSpatialLookup (predictBody env 0 s)).randCalls) := by
    unfold calculatePressureForce
    rw [hfn3]
    rfl
  unfold velocityAt at hv
  have hv0 : s.velocityData[0]? = some Vec2.zero := by
    rw [List.getElem?_eq_getElem (by omega)]
    rw [List.getD_eq_getElem _ _ (by omega : 0 < s.velocityData.length)] at hv
    rw [hv]
  unfold positionBody velocityBody
  simp only [hforce]
  rw [updateSpatialLookup_eq _ hl1]
  unfold boundaryView positionAt velocityAt
  simp only [densityBody, predictBody]
  simp [hg, hv0, Vec2.add, Vec2.mulScalar, Vec2.divScalar, Vec2.zero,
    List.getD_eq_getElem?_getD, List.getElem?_set, hpos, hvel]

/-- One step of a single particle at rest without gravity: the particle keeps its velocity
and position up to boundary resolution. -/
theorem single_at_rest_step (env : Env F) (deltaTime : F) (s : FluidParticleSystem F)
    (hN : s.particleCount = 1) (hlook : s.spacialLookup.length = 1)
    (hpos : s.positionData.length = 1) (hvel : s.velocityData.length = 1)
    (hv : s.velocityAt 0 = Vec2.zero) (hg : s.gravityAccValue = 0) :
    (updateParticleData env deltaTime s).positionAt 0 =
        ⟨if (s.positionAt 0).x < 0 ∨ (s.positionAt 0).x > (s.windowWidth : F)
            then stdClamp (s.positionAt 0).x 0 (s.windowWidth : F) else (s.positionAt 0).x,
         if (s.positionAt 0).y < 0 ∨ (s.positionAt 0).y > (s.windowHeight : F)
            then stdClamp (s.positionAt 0).y 0 (s.windowHeight : F) else (s.positionAt 0).y⟩ ∧
      (updateParticleData env deltaTime s).velocityAt 0 =
        ⟨if (s.positionAt 0).x < 0 ∨ (s.positionAt 0).x > (s.windowWidth : F)
            then (s.velocityAt 0).x * (-s.collisionDamping) else (s.velocityAt 0).x,
         if (s.positionAt 0).y < 0 ∨ (s.positionAt 0).y > (s.windowHeight : F)
            then (s.velocityAt 0).y * (-s.collisionDamping) else (s.velocityAt 0).y⟩ := by
  have hview := single_before_boundary env deltaTime s hN hlook hpos hvel hv hg
  simp only [boundaryView, Prod.mk.injEq] at hview
  obtain ⟨hd, hw, hh, hlp, hlv, hp, hvv⟩ := hview
  have hcount : (positionBody deltaTime 0 (velocityBody env deltaTime 0
      (densityBody env 0 (updateSpatialLookup (predictBody env 0 s))))).particleCount = 1 := by
    show (updateSpatialLookup (predictBody env 0 s)).particleCount = 1
    rw [(updateSpatialLookup_mass _).2]
    exact hN
  obtain ⟨hbp, hbv⟩ := handleBoundaryCollision_at _ 0 (by rw [hcount]; exact Nat.one_pos)
    (by rw [hlp, hpos]; exact Nat.one_pos) (by rw [hlv, hvel]; exact Nat.one_pos)
  rw [updateParticleData_single env deltaTime s hN, hbp, hbv, hd, hw, hh, hp, hvv]
  exact ⟨rfl, rfl⟩

end FluidParticleSystem

/-- Claim C7 (amended): for every system consisting of a single particle with velocity
`(0, 0)` and `gravityAccValue = 0` whose position lies inside the viewport
`[0, width] × [0, height]` and whose density is non-zero, one call of
`updateParticleData(deltaTime)`, for every `deltaTime`, leaves the position and the velocity
of the particle unchanged.  (The density hypothesis keeps the division
`pressureForce / densityData[i]` defined; it holds whenever the mass, the Poly6 scaling
factor and `smoothRadius` are positive.) -/
theorem single_particle_at_rest_inside_unchanged {F : Type} [LinearOrderedField F]
    [FloorRing F] (env : Env F) (deltaTime : F) (s : FluidParticleSystem F)
    (hN : s.particleCount = 1) (hlook : s.spacialLookup.length = 1)
    (hpos : s.positionData.length = 1) (hvel : s.velocityData.length = 1)
    (hv : s.velocityAt 0 = Vec2.zero) (hg : s.gravityAccValue = 0)
    (hx0 : 0 ≤ (s.positionAt 0).x) (hx1 : (s.positionAt 0).x ≤ (s.windowWidth : F))
    (hy0 : 0 ≤ (s.positionAt 0).y) (hy1 : (s.positionAt 0).y ≤ (s.windowHeight : F))
    (_hdensity : FluidParticleSystem.calculateDensity env s (s.positionAt 0) ≠ 0) :
    (FluidParticleSystem.updateParticleData env deltaTime s).positionAt 0 = s.positionAt 0 ∧
    (FluidParticleSystem.updateParticleData env deltaTime s).velocityAt 0 = s.velocityAt 0 := by
  obtain ⟨hp, hvv⟩ :=
    FluidParticleSystem.single_at_rest_step env deltaTime s hN hlook hpos hvel hv hg
  have hcx : ¬ ((s.positionAt 0).x < 0 ∨ (s.positionAt 0).x > (s.windowWidth : F)) := by
    rintro (h | h)
    · exact absurd h (not_lt.2 hx0)
    · exact absurd h (not_lt.2 hx1)
  have hcy : ¬ ((s.positionAt 0).y < 0 ∨ (s.positionAt 0).y > (s.windowHeight : F)) := by
    rintro (h | h)
    · exact absurd h (not_lt.2 hy0)
    · exact absurd h (not_lt.2 hy1)
  rw [hp, hvv, if_neg hcx, if_neg hcy, if_neg hcx, if_neg hcy]
  exact ⟨rfl, rfl⟩


/-- Claim C7 fails as stated: a single particle at rest at `(-5, 10)`, outside the
`100 × 100` viewport, with `gravityAccValue = 0`, is moved to `(0, 10)` by one step. -/
theorem single_particle_at_rest_outside_moves :
    restOutsideSystem.particleCount = 1 ∧
    restOutsideSystem.velocityAt 0 = ⟨0, 0⟩ ∧
    restOutsideSystem.gravityAccValue = 0 ∧
    restOutsideSystem.positionAt 0 = ⟨-5, 10⟩ ∧
    (FluidParticleSystem.updateParticleData ratEnv (1 / 60) restOutsideSystem).positionAt 0 =
      ⟨0, 10⟩ ∧
    (FluidParticleSystem.updateParticleData ratEnv (1 / 60) restOutsideSystem).positionAt 0 ≠
      restOutsideSystem.positionAt 0 := by
  have h := (FluidParticleSystem.single_at_rest_step ratEnv (1 / 60) restOutsideSystem
    rfl rfl rfl rfl rfl rfl).1
  have hp : restOutsideSystem.positionAt 0 = ⟨-5, 10⟩ := rfl
  have hw : restOutsideSystem.windowWidth = 100 := rfl
  have hh : restOutsideSystem.windowHeight = 100 := rfl
  rw [hp, hw, hh] at h
  have h2 : (FluidParticleSystem.updateParticleData ratEnv (1 / 60) restOutsideSystem).positionAt 0 =
      ⟨0, 10⟩ := by
    rw [h]
    norm_num [stdClamp]
  refine ⟨rfl, rfl, rfl, rfl, h2, ?_⟩
  rw [h2, hp]
  intro hc
  have := congrArg Vec2.x hc
  norm_num at this

/-- The amended C7 statement at `restInsideSystem`: a particle at rest at `(3, 4)`. -/
theorem single_particle_at_rest_inside_unchanged_witness :
    restInsideSystem.particleCount = 1 ∧
    restInsideSystem.velocityAt 0 = Vec2.zero ∧
    restInsideSystem.gravityAccValue = 0 ∧
    FluidParticleSystem.calculateDensity ratEnv restInsideSystem
      (restInsideSystem.positionAt 0) ≠ 0 ∧
    (FluidParticleSystem.updateParticleData ratEnv (1 / 60) restInsideSystem).positionAt 0 =
      restInsideSystem.positionAt 0 ∧
    (FluidParticleSystem.updateParticleData ratEnv (1 / 60) restInsideSystem).velocityAt 0 =
      restInsideSystem.velocityAt 0 :=
  have hx0 : 0 ≤ (restInsideSystem.positionAt 0).x := by
    norm_num [restInsideSystem, mkSystem, FluidParticleSystem.positionAt]
  have hx1 : (restInsideSystem.positionAt 0).x ≤ (restInsideSystem.windowWidth : ℚ) := by
    norm_num [restInsideSystem, mkSystem, FluidParticleSystem.positionAt]
  have hy0 : 0 ≤ (restInsideSystem.positionAt 0).y := by
    norm_num [restInsideSystem, mkSystem, FluidParticleSystem.positionAt]
  have hy1 : (restInsideSystem.positionAt 0).y ≤ (restInsideSystem.windowHeight : ℚ) := by
    norm_num [restInsideSystem, mkSystem, FluidParticleSystem.positionAt]
  have hd : FluidParticleSystem.calculateDensity ratEnv restInsideSystem
      (restInsideSystem.positionAt 0) ≠ 0 := by
    norm_num [restInsideSystem, mkSystem, FluidParticleSystem.positionAt,
      FluidParticleSystem.calculateDensity, forLoop, List.range, List.range.loop,
      FluidParticleSystem.kernelPoly6_2D, glmDistance, glmLength, Vec2.sub, Vec2.dot, ratEnv,
      ratSqrt, FluidParticleSystem.intPow]
  ⟨rfl, rfl, rfl, hd,
    single_particle_at_rest_inside_unchanged ratEnv (1 / 60) restInsideSystem
      rfl rfl rfl rfl rfl rfl hx0 hx1 hy0 hy1 hd⟩

/-! ## Cell coordinates -/

namespace FluidParticleSystem

variable {F : Type} [LinearOrderedField F] [FloorRing F]

theorem truncToInt_div_pos (x : F) (w : Int) (hw : 1 ≤ w) :
    truncToInt (x / (w : F)) = if 0 ≤ x then ⌊x / (w : F)⌋ else ⌈x / (w : F)⌉ := by
  have hwF : (0 : F) < (w : F) := by exact_mod_cast (by omega : 0 < w)
  unfold truncToInt
  by_cases hx : 0 ≤ x
  · rw [if_pos hx, if_pos (div_nonneg hx (le_of_lt hwF))]
  · rw [if_neg hx, if_neg (not_le.2 (div_neg_of_neg_of_pos (not_le.1 hx) hwF))]

/-- A value within the range of the float-to-int conversion truncates into the range of a
32-bit `int`. -/
theorem truncToInt_fits (q : F) (h : IntConvertible q) :
    -2147483648 ≤ truncToInt q ∧ truncToInt q ≤ 2147483647 := by
  obtain ⟨h1, h2⟩ := h
  unfold truncToInt
  split_ifs with h0
  · have hlo : (0 : Int) ≤ ⌊q⌋ := Int.floor_nonneg.2 h0
    have hhi : ⌊q⌋ < 2147483648 := Int.floor_lt.2 (by exact_mod_cast h2)
    omega
  · have hhi : ⌈q⌉ ≤ 0 := Int.ceil_le.2 (by simpa using le_of_lt (not_le.1 h0))
    have hlo : (-2147483649 : Int) < ⌈q⌉ := Int.lt_ceil.2 (by exact_mod_cast h1)
    omega

end FluidParticleSystem

/-- Claim C8 (amended): for every integer cell size in `[1, 2^31 - 1]` and every position
whose quotients `position / cellSize` are within the range of the float-to-int conversion
(their truncation fits a 32-bit `int`), `pos2gridCoord` returns per axis the quotient with
its fractional part discarded (rounded toward zero): `floor(position / cellSize)` for a
non-negative coordinate and `ceil(position / cellSize)` for a negative one, a value in
`[-2^31, 2^31 - 1]`.  The cell size that the rebuild passes is `smoothRadius` truncated to an
integer, which is `floor(smoothRadius)` for a radius in `[0, 2^31)`. -/
theorem pos2gridCoord_rounds_toward_zero {F : Type} [LinearOrderedField F] [FloorRing F]
    (position : Vec2 F) (gridWidth : Int) (hw : 1 ≤ gridWidth)
    (_hwmax : gridWidth ≤ 2147483647)
    (hx : FluidParticleSystem.IntConvertible (position.x / (gridWidth : F)))
    (hy : FluidParticleSystem.IntConvertible (position.y / (gridWidth : F))) :
    ((FluidParticleSystem.pos2gridCoord position gridWidth).x =
        (if 0 ≤ position.x then ⌊position.x / (gridWidth : F)⌋
          else ⌈position.x / (gridWidth : F)⌉) ∧
      -2147483648 ≤ (FluidParticleSystem.pos2gridCoord position gridWidth).x ∧
      (FluidParticleSystem.pos2gridCoord position gridWidth).x ≤ 2147483647) ∧
    ((FluidParticleSystem.pos2gridCoord position gridWidth).y =
        (if 0 ≤ position.y then ⌊position.y / (gridWidth : F)⌋
          else ⌈position.y / (gridWidth : F)⌉) ∧
      -2147483648 ≤ (FluidParticleSystem.pos2gridCoord position gridWidth).y ∧
      (FluidParticleSystem.pos2gridCoord position gridWidth).y ≤ 2147483647) ∧
    (∀ s : FluidParticleSystem F,
      FluidParticleSystem.hashKeyOf s position =
        FluidParticleSystem.positiveMod
          (FluidParticleSystem.hashGridCoord2D
            (FluidParticleSystem.pos2gridCoord position
              (FluidParticleSystem.truncToInt s.smoothRadius)))
          s.particleCount ∧
      (0 ≤ s.smoothRadius → s.smoothRadius < 2147483648 →
        FluidParticleSystem.truncToInt s.smoothRadius = ⌊s.smoothRadius⌋ ∧
        0 ≤ FluidParticleSystem.truncToInt s.smoothRadius ∧
        FluidParticleSystem.truncToInt s.smoothRadius ≤ 2147483647)) := by
  obtain ⟨hx1, hx2⟩ := FluidParticleSystem.truncToInt_fits _ hx
  obtain ⟨hy1, hy2⟩ := FluidParticleSystem.truncToInt_fits _ hy
  refine ⟨⟨FluidParticleSystem.truncToInt_div_pos _ _ hw, hx1, hx2⟩,
    ⟨FluidParticleSystem.truncToInt_div_pos _ _ hw, hy1, hy2⟩, fun s => ⟨rfl, fun h0 h1 => ?_⟩⟩
  have hfit : FluidParticleSystem.IntConvertible s.smoothRadius :=
    ⟨lt_of_lt_of_le (by norm_num) h0, h1⟩
  obtain ⟨_, hr2⟩ := FluidParticleSystem.truncToInt_fits _ hfit
  have heq : FluidParticleSystem.truncToInt s.smoothRadius = ⌊s.smoothRadius⌋ := by
    unfold FluidParticleSystem.truncToInt
    rw [if_pos h0]
  refine ⟨heq, ?_, hr2⟩
  rw [heq]
  exact Int.floor_nonneg.2 h0

/-- Claim C8 fails as stated: at position `(-1/2, 0)` with cell size `1` the code returns
cell `0` on the x axis, while `floor(-1/2) = -1`. -/
theorem pos2gridCoord_negative_not_floor :
    (FluidParticleSystem.pos2gridCoord (⟨-1 / 2, 0⟩ : Vec2 ℚ) 1).x = 0 ∧
    ⌊(-1 / 2 : ℚ) / ((1 : Int) : ℚ)⌋ = -1 ∧
    (FluidParticleSystem.pos2gridCoord (⟨-1 / 2, 0⟩ : Vec2 ℚ) 1).x ≠
      ⌊(⟨-1 / 2, 0⟩ : Vec2 ℚ).x / ((1 : Int) : ℚ)⌋ := by
  have h1 : (FluidParticleSystem.pos2gridCoord (⟨-1 / 2, 0⟩ : Vec2 ℚ) 1).x = 0 := by
    norm_num [FluidParticleSystem.pos2gridCoord, FluidParticleSystem.truncToInt]
  have h2 : ⌊(-1 / 2 : ℚ) / ((1 : Int) : ℚ)⌋ = -1 := by
    norm_num
  refine ⟨h1, h2, ?_⟩
  rw [h1]
  show (0 : Int) ≠ ⌊(-1 / 2 : ℚ) / ((1 : Int) : ℚ)⌋
  rw [h2]
  decide

/-- The amended C8 statement at position `(-1/2, 5/2)` and cell size `1`: the cell is
`(0, 2)`. -/
theorem pos2gridCoord_rounds_toward_zero_witness :
    (1 : Int) ≤ 1 ∧ (1 : Int) ≤ 2147483647 ∧
    FluidParticleSystem.IntConvertible ((⟨-1 / 2, 5 / 2⟩ : Vec2 ℚ).x / ((1 : Int) : ℚ)) ∧
    FluidParticleSystem.IntConvertible ((⟨-1 / 2, 5 / 2⟩ : Vec2 ℚ).y / ((1 : Int) : ℚ)) ∧
    ((FluidParticleSystem.pos2gridCoord (⟨-1 / 2, 5 / 2⟩ : Vec2 ℚ) 1).x =
        (if 0 ≤ (⟨-1 / 2, 5 / 2⟩ : Vec2 ℚ).x
          then ⌊(⟨-1 / 2, 5 / 2⟩ : Vec2 ℚ).x / ((1 : Int) : ℚ)⌋
          else ⌈(⟨-1 / 2, 5 / 2⟩ : Vec2 ℚ).x / ((1 : Int) : ℚ)⌉) ∧
      -2147483648 ≤ (FluidParticleSystem.pos2gridCoord (⟨-1 / 2, 5 / 2⟩ : Vec2 ℚ) 1).x ∧
      (FluidParticleSystem.pos2gridCoord (⟨-1 / 2, 5 / 2⟩ : Vec2 ℚ) 1).x ≤ 2147483647) ∧
    ((FluidParticleSystem.pos2gridCoord (⟨-1 / 2, 5 / 2⟩ : Vec2 ℚ) 1).y =
        (if 0 ≤ (⟨-1 / 2, 5 / 2⟩ : Vec2 ℚ).y
          then ⌊(⟨-1 / 2, 5 / 2⟩ : Vec2 ℚ).y / ((1 : Int) : ℚ)⌋
          else ⌈(⟨-1 / 2, 5 / 2⟩ : Vec2 ℚ).y / ((1 : Int) : ℚ)⌉) ∧
      -2147483648 ≤ (FluidParticleSystem.pos2gridCoord (⟨-1 / 2, 5 / 2⟩ : Vec2 ℚ) 1).y ∧
      (FluidParticleSystem.pos2gridCoord (⟨-1 / 2, 5 / 2⟩ : Vec2 ℚ) 1).y ≤ 2147483647) ∧
    FluidParticleSystem.pos2gridCoord (⟨-1 / 2, 5 / 2⟩ : Vec2 ℚ) 1 = ⟨0, 2⟩ :=
  have hx : FluidParticleSystem.IntConvertible
      ((⟨-1 / 2, 5 / 2⟩ : Vec2 ℚ).x / ((1 : Int) : ℚ)) := by
    norm_num [FluidParticleSystem.IntConvertible]
  have hy : FluidParticleSystem.IntConvertible
      ((⟨-1 / 2, 5 / 2⟩ : Vec2 ℚ).y / ((1 : Int) : ℚ)) := by
    norm_num [FluidParticleSystem.IntConvertible]
  have h := pos2gridCoord_rounds_toward_zero (⟨-1 / 2, 5 / 2⟩ : Vec2 ℚ) 1 (le_refl 1)
    (by decide) hx hy
  have hv : FluidParticleSystem.pos2gridCoord (⟨-1 / 2, 5 / 2⟩ : Vec2 ℚ) 1 = ⟨0, 2⟩ := by
    norm_num [FluidParticleSystem.pos2gridCoord, FluidParticleSystem.truncToInt]
  ⟨le_refl 1, by decide, hx, hy, h.1, h.2.1, hv⟩

/-! ## Initial layout -/

theorem foldlM_some_eq {σ α : Type} (g : σ → α → σ) (f : σ → α → Option σ)
    (hf : ∀ t a, f t a = some (g t a)) :
    ∀ (l : List α) (s : σ), l.foldlM f s = some (l.foldl g s) := by
  intro l
  induction l with
  | nil => intro s; rfl
  | cons a l ih =>
    intro s
    rw [List.foldlM_cons, hf, List.foldl_cons]
    exact ih (g s a)

theorem vectorResize_length {α : Type} (xs : List α) (n : Nat) (d : α) :
    (FluidParticleSystem.vectorResize xs n d).length = n := by
  unfold FluidParticleSystem.vectorResize
  rw [List.length_append, List.length_take, List.length_replicate]
  omega

namespace FluidParticleSystem

variable {F : Type} [LinearOrderedField F] [FloorRing F]

theorem truncToInt_intCast (z : Int) : truncToInt ((z : F)) = z := by
  unfold truncToInt
  split_ifs
  · exact Int.floor_intCast z
  · exact Int.ceil_intCast z

/-- For `stride > 0` and `maxWidth ≥ 0` the column count computed by `initParticleData` is
`floor(maxWidth / stride)`. -/
theorem cntPerRow_eq_floor (stride maxWidth : F) (hs : 0 < stride) (hm : 0 ≤ maxWidth) :
    truncToInt ((maxWidth - stdFmod maxWidth stride) / stride) = ⌊maxWidth / stride⌋ := by
  have hq : 0 ≤ maxWidth / stride := div_nonneg hm (le_of_lt hs)
  have ht : truncToInt (maxWidth / stride) = ⌊maxWidth / stride⌋ := by
    unfold truncToInt
    rw [if_pos hq]
  unfold stdFmod
  rw [ht]
  have h : (maxWidth - (maxWidth - ((⌊maxWidth / stride⌋ : Int) : F) * stride)) / stride =
      ((⌊maxWidth / stride⌋ : Int) : F) := by
    field_simp
  rw [h, truncToInt_intCast]

end FluidParticleSystem

namespace FluidParticleSystem

variable {F : Type} [LinearOrderedField F]

theorem initBody_eq_gridBody (env : Env F) (startPoint : Vec2 F) (stride : F) (cntPerRow : Int)
    (hc : cntPerRow ≠ 0) (s : FluidParticleSystem F) (i : Nat) :
    initBody env startPoint stride cntPerRow false s i =
      some (gridBody startPoint stride cntPerRow s i) := by
  unfold initBody gridBody
  rw [if_neg hc]
  rfl

theorem gridBody_other (startPoint : Vec2 F) (stride : F) (cntPerRow : Int) (i : Nat)
    (t : FluidParticleSystem F) (k : Nat) (hk : k ≠ i) :
    ((gridBody startPoint stride cntPerRow t i).positionData.length,
        (gridBody startPoint stride cntPerRow t i).positionAt k) =
      (t.positionData.length, t.positionAt k) := by
  have hki : ¬ i = k := fun h => hk h.symm
  simp [gridBody, positionAt, List.getD_eq_getElem?_getD, List.getElem?_set, hki]

theorem gridBody_self (startPoint : Vec2 F) (stride : F) (cntPerRow : Int) (i : Nat)
    (t : FluidParticleSystem F) (hi : i < t.positionData.length) :
    (gridBody startPoint stride cntPerRow t i).positionAt i =
      Vec2.add startPoint
        ⟨((Int.tmod (i : Int) cntPerRow : Int) : F) * stride,
         ((Int.tdiv (i : Int) cntPerRow : Int) : F) * stride⟩ := by
  simp [gridBody, positionAt, List.getD_eq_getElem?_getD, List.getElem?_set, hi]

end FluidParticleSystem

/-- Where `initParticleData` does not trap (`stride > 0`, `maxWidth ≥ stride`, hence at least
one column), it lays the particles out row-major: `position[i]` is
`startPoint + ((i mod c) * stride, (i div c) * stride)` with `c = floor(maxWidth / stride)`. -/
theorem initParticleData_grid_layout {F : Type} [LinearOrderedField F] [FloorRing F]
    (env : Env F) (startPoint : Vec2 F) (stride maxWidth : F) (s : FluidParticleSystem F)
    (hs : 0 < stride) (hm : stride ≤ maxWidth) (i : Nat) (hi : i < s.particleCount) :
    ∃ s1, FluidParticleSystem.initParticleData env startPoint stride maxWidth false s = some s1 ∧
      s1.positionAt i =
        Vec2.add startPoint
          ⟨((i % ⌊maxWidth / stride⌋.toNat : Nat) : F) * stride,
           ((i / ⌊maxWidth / stride⌋.toNat : Nat) : F) * stride⟩ := by
  have hm0 : 0 ≤ maxWidth := le_trans (le_of_lt hs) hm
  have hc := FluidParticleSystem.cntPerRow_eq_floor stride maxWidth hs hm0
  have hc1 : 1 ≤ ⌊maxWidth / stride⌋ := by
    rw [Int.le_floor]
    rw [le_div_iff₀ hs]
    simpa using hm
  have hcne : ⌊maxWidth / stride⌋ ≠ 0 := by omega
  unfold FluidParticleSystem.initParticleData
  simp only [hc]
  rw [foldlM_some_eq _ _ (FluidParticleSystem.initBody_eq_gridBody env startPoint stride _ hcne)]
  refine ⟨_, rfl, ?_⟩
  have hpw := forLoop_pointwise
    (fun (t : FluidParticleSystem F) k => (t.positionData.length, t.positionAt k))
    (fun i t => FluidParticleSystem.gridBody startPoint stride ⌊maxWidth / stride⌋ t i)
    (fun i t k hk => FluidParticleSystem.gridBody_other startPoint stride _ i t k hk)
  have hlen0 : (FluidParticleSystem.vectorResize s.positionData s.particleCount
      (Vec2.zero : Vec2 F)).length = s.particleCount := vectorResize_length _ _ _
  have h2 := (hpw (FluidParticleSystem.resizeVectors s) s.particleCount i).2 hi
  have h3 := (hpw (FluidParticleSystem.resizeVectors s) i i).1 le_rfl
  simp only [Prod.mk.injEq] at h2 h3
  show (forLoop s.particleCount
    (fun i t => FluidParticleSystem.gridBody startPoint stride ⌊maxWidth / stride⌋ t i)
    (FluidParticleSystem.resizeVectors s)).positionAt i = _
  rw [h2.2]
  have hli : i < (forLoop i
      (fun i t => FluidParticleSystem.gridBody startPoint stride ⌊maxWidth / stride⌋ t i)
      (FluidParticleSystem.resizeVectors s)).positionData.length := by
    rw [h3.1]
    exact lt_of_lt_of_eq hi hlen0.symm
  have hcast : ((⌊maxWidth / stride⌋.toNat : Nat) : Int) = ⌊maxWidth / stride⌋ :=
    Int.toNat_of_nonneg (by omega)
  have hmod : Int.tmod (i : Int) ⌊maxWidth / stride⌋ = ((i % ⌊maxWidth / stride⌋.toNat : Nat) : Int) := by
    rw [Int.ofNat_tmod, hcast]
  have hdiv : Int.tdiv (i : Int) ⌊maxWidth / stride⌋ = ((i / ⌊maxWidth / stride⌋.toNat : Nat) : Int) := by
    rw [Int.ofNat_tdiv, hcast]
  rw [FluidParticleSystem.gridBody_self _ _ _ _ _ hli, hmod, hdiv]
  simp only [Int.cast_natCast]


/-- Claim C10, evaluated at `stride = 2`, `maxWidth = 1`, one particle, `randomize = false`:
`maxWidth - fmod(maxWidth, stride)` is `0`, so `cntPerRow = 0` and the first iteration
divides the integer `i` by zero; no layout is produced. -/
theorem initParticleData_traps_when_maxWidth_below_stride :
    (0 : ℚ) < 2 ∧ (0 : ℚ) < 1 ∧ (constructedSystem 1 2).particleCount = 1 ∧
    FluidParticleSystem.truncToInt
      (((1 : ℚ) - FluidParticleSystem.stdFmod (1 : ℚ) 2) / 2) = 0 ∧
    FluidParticleSystem.initParticleData ratEnv ⟨0, 0⟩ 2 1 false (constructedSystem 1 2) =
      none := by
  have hc : FluidParticleSystem.truncToInt
      (((1 : ℚ) - FluidParticleSystem.stdFmod (1 : ℚ) 2) / 2) = 0 := by
    norm_num [FluidParticleSystem.stdFmod, FluidParticleSystem.truncToInt]
  refine ⟨by norm_num, by norm_num, rfl, hc, ?_⟩
  unfold FluidParticleSystem.initParticleData
  simp only [hc]
  rfl

/-! ## Density pass -/

namespace FluidParticleSystem

variable {F : Type} [LinearOrderedField F] [FloorRing F]

/-- A simulation step leaves the members of `constView` as they are. -/
theorem updateParticleData_constView (env : Env F) (deltaTime : F)
    (s : FluidParticleSystem F) :
    (updateParticleData env deltaTime s).constView = s.constView := by
  have key : ∀ (body : Nat → FluidParticleSystem F → FluidParticleSystem F),
      (∀ i t, (body i t).constView = t.constView) →
      ∀ n t, (forLoop n body t).constView = t.constView :=
    fun body hbody n t => forLoop_proj_eq constView body hbody n t
  have h1 := key (predictBody env) (fun _ _ => rfl)
  have h2a := key fillLookupBody (fun _ _ => rfl)
  have h2b := key bucketStartBody (fun i t => by
    unfold bucketStartBody
    simp only
    split_ifs <;> rfl)
  have h2 : ∀ t : FluidParticleSystem F, (updateSpatialLookup t).constView = t.constView := by
    intro t
    unfold updateSpatialLookup
    simp only
    rw [h2b]
    exact h2a _ t
  have h3 := key (densityBody env) (fun _ _ => rfl)
  have h4 := key (velocityBody env deltaTime) (fun _ _ => rfl)
  have h5 := key (positionBody deltaTime) (fun _ _ => rfl)
  have h6 := key (fun i st => boundaryY i (boundaryX i st)) (fun i t => by
    unfold boundaryY boundaryX
    simp only
    split_ifs <;> rfl)
  unfold updateParticleData handleBoundaryCollision
  simp only
  rw [h6, h5, h4, h3, h2, h1]

theorem handleBoundaryCollision_density {G : Type} [LinearOrderedField G]
    (t : FluidParticleSystem G) :
    (handleBoundaryCollision t).densityData = t.densityData ∧
      (handleBoundaryCollision t).nextPositionData = t.nextPositionData := by
  have hb : ∀ i (u : FluidParticleSystem G),
      (boundaryY i (boundaryX i u)).densityData = u.densityData ∧
        (boundaryY i (boundaryX i u)).nextPositionData = u.nextPositionData := by
    intro i u
    unfold boundaryY boundaryX
    simp only
    split_ifs <;> exact ⟨rfl, rfl⟩
  unfold handleBoundaryCollision
  exact ⟨forLoop_proj_eq (fun u => u.densityData) _ (fun i u => (hb i u).1) _ t,
    forLoop_proj_eq (fun u => u.nextPositionData) _ (fun i u => (hb i u).2) _ t⟩

/-- The density and the predicted position that one step leaves behind for a single
particle. -/
theorem single_step_density (env : Env F) (deltaTime : F) (s : FluidParticleSystem F)
    (hN : s.particleCount = 1) (hlook : s.spacialLookup.length = 1) :
    (updateParticleData env deltaTime s).nextPositionData =
        s.nextPositionData.set 0
          (Vec2.add (s.positionAt 0) (Vec2.mulScalar (s.velocityAt 0) env.lookAheadTime)) ∧
      (updateParticleData env deltaTime s).densityData =
        s.densityData.set 0
          (calculateDensity env s
            ((s.nextPositionData.set 0
              (Vec2.add (s.positionAt 0)
                (Vec2.mulScalar (s.velocityAt 0) env.lookAheadTime))).getD 0 Vec2.zero)) := by
  have hl1 : (predictBody env 0 s).spacialLookup.length = (predictBody env 0 s).particleCount := by
    show s.spacialLookup.length = s.particleCount
    rw [hlook, hN]
  rw [updateParticleData_single env deltaTime s hN]
  obtain ⟨h1, h2⟩ := handleBoundaryCollision_density
    (positionBody deltaTime 0 (velocityBody env deltaTime 0
      (densityBody env 0 (updateSpatialLookup (predictBody env 0 s)))))
  rw [h1, h2]
  unfold positionBody velocityBody densityBody
  simp only
  rw [updateSpatialLookup_eq _ hl1]
  exact ⟨rfl, rfl⟩

end FluidParticleSystem

/-- Claim C4, evaluated at one particle at `(0, 0)` with velocity `(120, 0)`, mass `100`,
`smoothRadius = 2` and look-ahead time `1/120`: the predicted position is `(1, 0)`, and the
density pass measures the distance from it to the current position `(0, 0)`, giving
`100 * Poly6(1, 2) = 4725/352`; with both end points predicted the distance is `0` and the
density would be `100 * Poly6(0, 2) = 350/11`. -/
theorem density_pass_mixes_current_and_predicted_positions :
    (FluidParticleSystem.updateParticleData ratEnv (1 / 60) driftSystem).nextPositionData =
      [⟨1, 0⟩] ∧
    (FluidParticleSystem.updateParticleData ratEnv (1 / 60) driftSystem).densityData =
      [4725 / 352] ∧
    FluidParticleSystem.densityFromPredicted ratEnv
      (FluidParticleSystem.updateParticleData ratEnv (1 / 60) driftSystem) 0 = 350 / 11 ∧
    (FluidParticleSystem.updateParticleData ratEnv (1 / 60) driftSystem).densityData.getD 0 0 ≠
      FluidParticleSystem.densityFromPredicted ratEnv
        (FluidParticleSystem.updateParticleData ratEnv (1 / 60) driftSystem) 0 := by
  obtain ⟨hnext, hdens⟩ :=
    FluidParticleSystem.single_step_density ratEnv (1 / 60) driftSystem rfl rfl
  have h1 : (FluidParticleSystem.updateParticleData ratEnv (1 / 60) driftSystem).nextPositionData =
      [⟨1, 0⟩] := by
    rw [hnext]
    norm_num [driftSystem, mkSystem, FluidParticleSystem.positionAt,
      FluidParticleSystem.velocityAt, Vec2.add, Vec2.mulScalar, ratEnv]
  have h2 : (FluidParticleSystem.updateParticleData ratEnv (1 / 60) driftSystem).densityData =
      [4725 / 352] := by
    rw [hdens]
    norm_num [driftSystem, mkSystem, FluidParticleSystem.positionAt,
      FluidParticleSystem.velocityAt, Vec2.add, Vec2.mulScalar, ratEnv,
      FluidParticleSystem.calculateDensity, forLoop, List.range, List.range.loop,
      FluidParticleSystem.kernelPoly6_2D, glmDistance, glmLength, Vec2.sub, Vec2.dot,
      ratSqrt, FluidParticleSystem.intPow]
  have h3 : FluidParticleSystem.densityFromPredicted ratEnv
      (FluidParticleSystem.updateParticleData ratEnv (1 / 60) driftSystem) 0 = 350 / 11 := by
    have hc := FluidParticleSystem.updateParticleData_constView ratEnv (1 / 60) driftSystem
    simp only [FluidParticleSystem.constView, Prod.mk.injEq] at hc
    obtain ⟨hn, hr, _, _, _, _, hsc, _, _, _, _, hm⟩ := hc
    unfold FluidParticleSystem.densityFromPredicted FluidParticleSystem.nextPositionAt
    rw [hn, hr, hm, h1]
    simp only [FluidParticleSystem.kernelPoly6_2D, hsc]
    norm_num [driftSystem, mkSystem, ratEnv, List.range, List.range.loop,
      glmDistance, glmLength, Vec2.sub, Vec2.dot, ratSqrt, FluidParticleSystem.intPow]
  refine ⟨h1, h2, h3, ?_⟩
  rw [h2, h3]
  norm_num

/-! ## Pressure force between two particles -/

theorem pressedPair_entries :
    (List.range 2).map (FluidParticleSystem.entryOf pressedPairSystem) = [⟨0, 0⟩, ⟨1, 0⟩] := by
  simp [List.range, List.range.loop, FluidParticleSystem.entryOf, FluidParticleSystem.hashKeyOf,
    pressedPairSystem, pairSystem, mkSystem, FluidParticleSystem.pos2gridCoord]
  norm_num [FluidParticleSystem.truncToInt]
  decide

theorem pressedPair_sortedLookup :
    FluidParticleSystem.sortedLookup pressedPairSystem = [⟨0, 0⟩, ⟨1, 0⟩] := by
  have h : pressedPairSystem.particleCount = 2 := rfl
  unfold FluidParticleSystem.sortedLookup
  rw [h, pressedPair_entries]
  decide

theorem pressedPair_gridPos :
    FluidParticleSystem.pos2gridCoord
        ((FluidParticleSystem.updateSpatialLookup pressedPairSystem).nextPositionData.getD 0
          Vec2.zero)
        (FluidParticleSystem.truncToInt
          (FluidParticleSystem.updateSpatialLookup pressedPairSystem).smoothRadius) = ⟨0, 0⟩ := by
  rw [FluidParticleSystem.updateSpatialLookup_eq _ rfl]
  simp [pressedPairSystem, pairSystem, mkSystem, FluidParticleSystem.pos2gridCoord]
  norm_num [FluidParticleSystem.truncToInt]

/-- With two particles the hash keys are the parities of the cell coordinates, so five of
the nine cells of the window share the key of the neighbour: it is visited five times. -/
theorem pressedPair_foreachNeighbor :
    FluidParticleSystem.foreachNeighbor
      (FluidParticleSystem.updateSpatialLookup pressedPairSystem) 0 = [1, 1, 1, 1, 1] := by
  unfold FluidParticleSystem.foreachNeighbor
  simp only [pressedPair_gridPos]
  rw [FluidParticleSystem.updateSpatialLookup_eq _ rfl, pressedPair_sortedLookup]
  decide

/-- Claim C6, evaluated at two particles at `(0, 0)` and `(1, 0)` (distance `1`), with
`smoothRadius = 2`, equal densities `2`, target density `1`, pressure multiplier `1` and
masses `100`: the formula of the claim gives `(-525/44, 0)`, the code accumulates the
contribution of the one neighbour five times and returns `(-2625/44, 0)`. -/
theorem pressure_force_counts_neighbour_five_times :
    pressedPairSystem.particleCount = 2 ∧
    pressedPairSystem.densityData = [2, 2] ∧ pressedPairSystem.targetDensity = 1 ∧
    pressedPairSystem.pressureMultiplier = 1 ∧ pressedPairSystem.smoothRadius = 2 ∧
    pressedPairSystem.nextPositionData = [⟨0, 0⟩, ⟨1, 0⟩] ∧
    FluidParticleSystem.foreachNeighbor
      (FluidParticleSystem.updateSpatialLookup pressedPairSystem) 0 = [1, 1, 1, 1, 1] ∧
    FluidParticleSystem.pairForceFormula ratEnv
      (FluidParticleSystem.updateSpatialLookup pressedPairSystem) 0 1 = ⟨-525 / 44, 0⟩ ∧
    (FluidParticleSystem.calculatePressureForce ratEnv
      (FluidParticleSystem.updateSpatialLookup pressedPairSystem) 0).1 = ⟨-2625 / 44, 0⟩ ∧
    (FluidParticleSystem.calculatePressureForce ratEnv
      (FluidParticleSystem.updateSpatialLookup pressedPairSystem) 0).1 ≠
      FluidParticleSystem.pairForceFormula ratEnv
        (FluidParticleSystem.updateSpatialLookup pressedPairSystem) 0 1 := by
  have h1 : FluidParticleSystem.pairForceFormula ratEnv
      (FluidParticleSystem.updateSpatialLookup pressedPairSystem) 0 1 = ⟨-525 / 44, 0⟩ := by
    rw [FluidParticleSystem.updateSpatialLookup_eq _ rfl]
    norm_num [FluidParticleSystem.pairForceFormula, FluidParticleSystem.nextPositionAt,
      pressedPairSystem, pairSystem, mkSystem, ratEnv, glmDistance, glmLength, glmNormalize,
      Vec2.sub, Vec2.dot, Vec2.scale, Vec2.mulScalar, ratSqrt,
      FluidParticleSystem.derivativeSpikyPow2_2D, FluidParticleSystem.intPow]
  have h2 : (FluidParticleSystem.calculatePressureForce ratEnv
      (FluidParticleSystem.updateSpatialLookup pressedPairSystem) 0).1 = ⟨-2625 / 44, 0⟩ := by
    unfold FluidParticleSystem.calculatePressureForce
    rw [pressedPair_foreachNeighbor, FluidParticleSystem.updateSpatialLookup_eq _ rfl]
    norm_num [List.foldl, FluidParticleSystem.pressureCallback,
      pressedPairSystem, pairSystem, mkSystem, ratEnv, glmDistance, glmLength, glmNormalize,
      Vec2.sub, Vec2.dot, Vec2.scale, Vec2.mulScalar, Vec2.add, Vec2.zero, ratSqrt,
      FluidParticleSystem.derivativeSpikyPow2_2D, FluidParticleSystem.intPow]
  refine ⟨rfl, rfl, rfl, rfl, rfl, rfl, pressedPair_foreachNeighbor, h1, h2, ?_⟩
  rw [h1, h2]
  intro hc
  have := congrArg Vec2.x hc
  norm_num at this

/-! ## Parameter reload -/

/-- Claim C11: `reloadConfigParam` leaves `particleCount`, the position, predicted-position,
velocity, density and mass arrays and the two spatial lookup tables unchanged (and likewise
the window extent and the random stream); the five tunable coefficients and the three
scaling factors are the only members it assigns, the coefficients taking the values read
from the configuration. -/
theorem reloadConfigParam_changes_only_parameters {F : Type} [LinearOrderedField F]
    (env : Env F) (config : FluidParticleSystem.Config F) (s : FluidParticleSystem F) :
    (FluidParticleSystem.reloadConfigParam env config s).particleCount = s.particleCount ∧
    (FluidParticleSystem.reloadConfigParam env config s).positionData = s.positionData ∧
    (FluidParticleSystem.reloadConfigParam env config s).nextPositionData =
      s.nextPositionData ∧
    (FluidParticleSystem.reloadConfigParam env config s).velocityData = s.velocityData ∧
    (FluidParticleSystem.reloadConfigParam env config s).densityData = s.densityData ∧
    (FluidParticleSystem.reloadConfigParam env config s).massData = s.massData ∧
    (FluidParticleSystem.reloadConfigParam env config s).spacialLookup = s.spacialLookup ∧
    (FluidParticleSystem.reloadConfigParam env config s).spacialLookupEntry =
      s.spacialLookupEntry ∧
    (FluidParticleSystem.reloadConfigParam env config s).windowWidth = s.windowWidth ∧
    (FluidParticleSystem.reloadConfigParam env config s).windowHeight = s.windowHeight ∧
    (FluidParticleSystem.reloadConfigParam env config s).randCalls = s.randCalls ∧
    (FluidParticleSystem.reloadConfigParam env config s).smoothRadius = config.smoothRadius ∧
    (FluidParticleSystem.reloadConfigParam env config s).collisionDamping =
      config.collisionDamping ∧
    (FluidParticleSystem.reloadConfigParam env config s).targetDensity =
      config.targetDensity ∧
    (FluidParticleSystem.reloadConfigParam env config s).pressureMultiplier =
      config.pressureMultiplier ∧
    (FluidParticleSystem.reloadConfigParam env config s).gravityAccValue =
      config.gravityAccValue :=
  ⟨rfl, rfl, rfl, rfl, rfl, rfl, rfl, rfl, rfl, rfl, rfl, rfl, rfl, rfl, rfl, rfl⟩

/-! ## Repeated visits -/

/-- Claim C13, evaluated at two particles at `(0, 0)` and `(1, 0)` with `smoothRadius = 2`,
right after a rebuild: the scan of particle 0 never hands particle 0 to the callback, but it
hands particle 1 to it five times, once for each of the five window cells whose key is the
key of the bucket that holds particle 1. -/
theorem foreachNeighbor_visits_neighbour_five_times :
    pressedPairSystem.LookupSized ∧
    FluidParticleSystem.foreachNeighbor
      (FluidParticleSystem.updateSpatialLookup pressedPairSystem) 0 = [1, 1, 1, 1, 1] ∧
    (FluidParticleSystem.foreachNeighbor
      (FluidParticleSystem.updateSpatialLookup pressedPairSystem) 0).count 1 = 5 ∧
    0 ∉ FluidParticleSystem.foreachNeighbor
      (FluidParticleSystem.updateSpatialLookup pressedPairSystem) 0 := by
  rw [pressedPair_foreachNeighbor]
  exact ⟨⟨rfl, rfl, by decide⟩, rfl, by decide, by decide⟩

/-! ## Zero density -/

/-- Claim C14, evaluated at one particle of mass `100` at `(0, 0)` with velocity `(240, 0)`,
`smoothRadius = 2` and look-ahead time `1/120`: the predicted position `(2, 0)` is at
distance `2 = smoothRadius` from the current position that `calculateDensity` measures
against, so the only term of the sum is `0` and the density pass leaves `density[0] = 0`. -/
theorem density_pass_can_leave_zero_density :
    fastSystem.particleCount = 1 ∧ 0 < fastSystem.smoothRadius ∧
    fastSystem.massData = [100] ∧ 0 < fastSystem.scalingFactorPoly6_2D ∧
    (FluidParticleSystem.updateParticleData ratEnv (1 / 60) fastSystem).nextPositionData =
      [⟨2, 0⟩] ∧
    (FluidParticleSystem.updateParticleData ratEnv (1 / 60) fastSystem).densityData = [0] := by
  obtain ⟨hnext, hdens⟩ :=
    FluidParticleSystem.single_step_density ratEnv (1 / 60) fastSystem rfl rfl
  have hsqrt : (Int.toNat 4).sqrt = 2 := Nat.sqrt_eq 2
  refine ⟨rfl, ?_, rfl, ?_, ?_, ?_⟩
  · norm_num [fastSystem, mkSystem]
  · norm_num [fastSystem, mkSystem, ratEnv, FluidParticleSystem.intPow]
  · rw [hnext]
    norm_num [fastSystem, mkSystem, FluidParticleSystem.positionAt,
      FluidParticleSystem.velocityAt, Vec2.add, Vec2.mulScalar, ratEnv]
  · rw [hdens]
    norm_num [fastSystem, mkSystem, FluidParticleSystem.positionAt,
      FluidParticleSystem.velocityAt, Vec2.add, Vec2.mulScalar, ratEnv,
      FluidParticleSystem.calculateDensity, forLoop, List.range, List.range.loop,
      FluidParticleSystem.kernelPoly6_2D, glmDistance, glmLength, Vec2.sub, Vec2.dot,
      ratSqrt, FluidParticleSystem.intPow, hsqrt]

/-! ## Cell width -/

/-- For every `smoothRadius` in `[1, 2^31)` the integer cell size that `updateSpatialLookup`
and `foreachNeighbor` pass to `pos2gridCoord`, `smoothRadius` truncated to an integer, is
`floor(smoothRadius)`, a value in `[1, 2^31 - 1]`; the divisor of `position / gridWidth`
in `pos2gridCoord` is then not zero. -/
theorem cell_width_nonzero_of_radius_ge_one {F : Type} [LinearOrderedField F] [FloorRing F]
    (s : FluidParticleSystem F) (hr : 1 ≤ s.smoothRadius) (hmax : s.smoothRadius < 2147483648) :
    FluidParticleSystem.truncToInt s.smoothRadius = ⌊s.smoothRadius⌋ ∧
    1 ≤ FluidParticleSystem.truncToInt s.smoothRadius ∧
    FluidParticleSystem.truncToInt s.smoothRadius ≤ 2147483647 ∧
    FluidParticleSystem.truncToInt s.smoothRadius ≠ 0 ∧
    ((FluidParticleSystem.truncToInt s.smoothRadius : Int) : F) ≠ 0 := by
  have h1 := FluidParticleSystem.truncToInt_pos_of_one_le hr
  have hfit : FluidParticleSystem.IntConvertible s.smoothRadius :=
    ⟨lt_of_lt_of_le (by norm_num) hr, hmax⟩
  refine ⟨?_, h1, (FluidParticleSystem.truncToInt_fits _ hfit).2, by omega, ?_⟩
  · unfold FluidParticleSystem.truncToInt
    rw [if_pos (le_trans zero_le_one hr)]
  · exact_mod_cast (by omega : FluidParticleSystem.truncToInt s.smoothRadius ≠ 0)

/-- Claim C15, evaluated at `smoothRadius = 1/2`, a positive radius: truncated to an integer
it is `0`, and this `0` is the cell size that the rebuild hands to `pos2gridCoord`, which
divides the position by it. -/
theorem cell_width_zero_for_radius_one_half :
    0 < subPixelSystem.smoothRadius ∧
    FluidParticleSystem.truncToInt subPixelSystem.smoothRadius = 0 ∧
    ((FluidParticleSystem.truncToInt subPixelSystem.smoothRadius : Int) : ℚ) = 0 ∧
    FluidParticleSystem.hashKeyOf subPixelSystem (subPixelSystem.nextPositionAt 0) =
      FluidParticleSystem.positiveMod
        (FluidParticleSystem.hashGridCoord2D
          (FluidParticleSystem.pos2gridCoord (subPixelSystem.nextPositionAt 0) 0))
        subPixelSystem.particleCount := by
  have h : FluidParticleSystem.truncToInt subPixelSystem.smoothRadius = 0 := by
    norm_num [subPixelSystem, mkSystem, FluidParticleSystem.truncToInt]
  refine ⟨by norm_num [subPixelSystem, mkSystem], h, ?_, ?_⟩
  · rw [h]
    norm_num
  · unfold FluidParticleSystem.hashKeyOf
    rw [h]

/-- The statement of `cell_width_nonzero_of_radius_ge_one` at `pairSystem`, whose
`smoothRadius` is `2`. -/
theorem cell_width_nonzero_at_pairSystem :
    1 ≤ pairSystem.smoothRadius ∧ pairSystem.smoothRadius < 2147483648 ∧
    FluidParticleSystem.truncToInt pairSystem.smoothRadius = ⌊pairSystem.smoothRadius⌋ ∧
    1 ≤ FluidParticleSystem.truncToInt pairSystem.smoothRadius ∧
    FluidParticleSystem.truncToInt pairSystem.smoothRadius ≤ 2147483647 ∧
    FluidParticleSystem.truncToInt pairSystem.smoothRadius ≠ 0 ∧
    ((FluidParticleSystem.truncToInt pairSystem.smoothRadius : Int) : ℚ) ≠ 0 :=
  have h : 1 ≤ pairSystem.smoothRadius := by norm_num [pairSystem, mkSystem]
  have h2 : pairSystem.smoothRadius < 2147483648 := by norm_num [pairSystem, mkSystem]
  ⟨h, h2, cell_width_nonzero_of_radius_ge_one pairSystem h h2⟩

/-! ## The run of a key -/

theorem filter_eq_takeWhile_of_pairwise {α : Type} (p : α → Bool) :
    ∀ l : List α, l.Pairwise (fun a b => p b = true → p a = true) →
      l.filter p = l.takeWhile p := by
  intro l
  induction l with
  | nil => intro _; rfl
  | cons a l ih =>
    intro h
    rw [List.pairwise_cons] at h
    by_cases ha : p a = true
    · rw [List.filter_cons_of_pos ha, List.takeWhile_cons_of_pos ha, ih h.2]
    · rw [List.filter_cons_of_neg ha, List.takeWhile_cons_of_neg ha, List.filter_eq_nil_iff]
      intro b hb hpb
      exact ha (h.1 b hb hpb)

namespace FluidParticleSystem

/-- The forward scan of `foreachNeighbor` from position `j` over at most `fuel` entries:
it walks the positions `j, j + 1, ...` while the key matches and hands the particle of each
to the callback unless that is the query particle. -/
theorem scanBucket_eq_takeWhile {G : Type} (s : FluidParticleSystem G) (k i : Nat) :
    ∀ fuel j, scanBucket s k i fuel j =
      (((List.range' j fuel).takeWhile (fun m => decide (s.lookupKeyAt m = k))).map
        s.lookupIndexAt).filter (fun x => decide (x ≠ i)) := by
  intro fuel
  induction fuel with
  | zero => intro j; rfl
  | succ fuel ih =>
    intro j
    rw [List.range'_succ]
    simp only [scanBucket]
    by_cases hk : s.lookupKeyAt j = k
    · have hk2 : ¬ (s.spacialLookup.getD j ⟨0, 0⟩).spatialHashKey ≠ k := not_not.2 hk
      have hpk : (fun m => decide (s.lookupKeyAt m = k)) j = true := decide_eq_true hk
      rw [if_neg hk2,
        @List.takeWhile_cons_of_pos _ (fun m => decide (s.lookupKeyAt m = k)) j _ hpk,
        List.map_cons, ih (j + 1)]
      by_cases hp : s.lookupIndexAt j = i
      · have hp2 : ¬ (s.spacialLookup.getD j ⟨0, 0⟩).particleIndex ≠ i := not_not.2 hp
        have hpi : ¬ (fun x => decide (x ≠ i)) (s.lookupIndexAt j) = true :=
          fun h => (of_decide_eq_true h) hp
        rw [if_neg hp2, List.nil_append,
          @List.filter_cons_of_neg _ (fun x => decide (x ≠ i)) (s.lookupIndexAt j) _ hpi]
      · have hp2 : (s.spacialLookup.getD j ⟨0, 0⟩).particleIndex ≠ i := hp
        have hpi : (fun x => decide (x ≠ i)) (s.lookupIndexAt j) = true := decide_eq_true hp
        rw [if_pos hp2,
          @List.filter_cons_of_pos _ (fun x => decide (x ≠ i)) (s.lookupIndexAt j) _ hpi]
        rfl
    · have hk2 : (s.spacialLookup.getD j ⟨0, 0⟩).spatialHashKey ≠ k := hk
      have hpk : ¬ (fun m => decide (s.lookupKeyAt m = k)) j = true :=
        fun h => hk (of_decide_eq_true h)
      rw [if_pos hk2,
        @List.takeWhile_cons_of_neg _ (fun m => decide (s.lookupKeyAt m = k)) j _ hpk]
      rfl

theorem lookupKeyAt_eq_getElem {G : Type} (s : FluidParticleSystem G) (m : Nat)
    (hm : m < s.spacialLookup.length) :
    s.lookupKeyAt m = (s.spacialLookup[m]).spatialHashKey := by
  unfold lookupKeyAt
  rw [List.getD_eq_getElem _ _ hm]

/-- In a scan-ready state the recorded start of an occupied key is the first position of
that key. -/
theorem bucketStartAt_of_occupied {G : Type} (s : FluidParticleSystem G) (h : s.ScanReady)
    (k m : Nat) (hm : m < s.particleCount) (hk : s.lookupKeyAt m = k) :
    s.bucketStartAt k = firstIndexOfKey s.spacialLookup k ∧
      firstIndexOfKey s.spacialLookup k ≤ m := by
  obtain ⟨⟨hL, _, _⟩, _, hfirst, _⟩ := h
  have hm2 : m < s.spacialLookup.length := by omega
  rw [lookupKeyAt_eq_getElem s m hm2] at hk
  have h1 := hfirst m hm2
  have h2 := firstIndexOfKey_le s.spacialLookup m hm2
  rw [hk] at h1 h2
  exact ⟨h1, h2⟩

/-- In a scan-ready state, walking from the recorded start of `k` while the key is `k`
passes exactly the positions whose key is `k`. -/
theorem takeWhile_from_bucketStart {G : Type} (s : FluidParticleSystem G) (h : s.ScanReady)
    (k : Nat) :
    (List.range' (s.bucketStartAt k) (s.particleCount - s.bucketStartAt k)).takeWhile
        (fun m => decide (s.lookupKeyAt m = k)) = s.keyRun k := by
  have hready := h
  obtain ⟨⟨hL, _, _⟩, hsorted, _, _⟩ := h
  rw [List.pairwise_iff_getElem] at hsorted
  unfold keyRun
  by_cases hocc : ∃ m, m < s.particleCount ∧ s.lookupKeyAt m = k
  · obtain ⟨m, hm, hk⟩ := hocc
    obtain ⟨hstart, hle⟩ := bucketStartAt_of_occupied s hready k m hm hk
    have hflt : firstIndexOfKey s.spacialLookup k < s.spacialLookup.length := by omega
    have hfkey := key_at_firstIndexOfKey s.spacialLookup k hflt
    rw [hstart, List.range_eq_range']
    have hsplit : List.range' 0 s.particleCount =
        List.range' 0 (firstIndexOfKey s.spacialLookup k) ++
          List.range' (firstIndexOfKey s.spacialLookup k)
            (s.particleCount - firstIndexOfKey s.spacialLookup k) := by
      have := List.range'_append 0 (firstIndexOfKey s.spacialLookup k)
        (s.particleCount - firstIndexOfKey s.spacialLookup k) 1
      rw [Nat.zero_add, Nat.one_mul, Nat.sub_add_cancel (by omega)] at this
      exact this.symm
    rw [hsplit, List.filter_append]
    have hpre : (List.range' 0 (firstIndexOfKey s.spacialLookup k)).filter
        (fun m => decide (s.lookupKeyAt m = k)) = [] := by
      rw [List.filter_eq_nil_iff]
      intro a ha hpa
      rw [List.mem_range'_1] at ha
      have hal : a < s.spacialLookup.length := by omega
      have hnot := @List.not_of_lt_findIdx _ (fun e => decide (e.spatialHashKey = k))
        s.spacialLookup a (by unfold firstIndexOfKey at ha; omega)
      have hpa2 := of_decide_eq_true hpa
      rw [lookupKeyAt_eq_getElem s a hal] at hpa2
      simp [hpa2] at hnot
    rw [hpre, List.nil_append]
    symm
    apply filter_eq_takeWhile_of_pairwise
    refine List.Pairwise.imp_of_mem ?_ (List.pairwise_lt_range' _ _)
    intro a b ha hb hab hpb
    rw [List.mem_range'_1] at ha hb
    have hal : a < s.spacialLookup.length := by omega
    have hbl : b < s.spacialLookup.length := by omega
    have hkb := of_decide_eq_true hpb
    rw [lookupKeyAt_eq_getElem s b hbl] at hkb
    apply decide_eq_true
    rw [lookupKeyAt_eq_getElem s a hal]
    have h1 : (s.spacialLookup[a]).spatialHashKey ≤ (s.spacialLookup[b]).spatialHashKey :=
      hsorted a b hal hbl hab
    have h2 : (s.spacialLookup[firstIndexOfKey s.spacialLookup k]).spatialHashKey ≤
        (s.spacialLookup[a]).spatialHashKey := by
      rcases Nat.eq_or_lt_of_le ha.1 with h | h
      · simp only [h]; exact le_rfl
      · exact hsorted _ a hflt hal h
    omega
  · have hno : ∀ m, m < s.particleCount → ¬ s.lookupKeyAt m = k :=
      fun m hm hk => hocc ⟨m, hm, hk⟩
    have hrun : (List.range s.particleCount).filter
        (fun m => decide (s.lookupKeyAt m = k)) = [] := by
      rw [List.filter_eq_nil_iff]
      intro a ha hpa
      exact hno a (List.mem_range.1 ha) (of_decide_eq_true hpa)
    rw [hrun]
    cases hfuel : s.particleCount - s.bucketStartAt k with
    | zero => rfl
    | succ n =>
      rw [List.range'_succ]
      exact @List.takeWhile_cons_of_neg _ (fun m => decide (s.lookupKeyAt m = k)) _ _
        (fun hp => hno _ (by omega) (of_decide_eq_true hp))

variable {F : Type} [LinearOrderedField F] [FloorRing F]

theorem sortedLookup_key_lt (s : FluidParticleSystem F) (e : SpatialHashEntry)
    (he : e ∈ sortedLookup s) : e.spatialHashKey < s.particleCount := by
  obtain ⟨i, hi, rfl⟩ := (mem_sortedLookup s e).1 he
  exact positiveMod_lt _ _ (by omega)

/-- A freshly sized system, whose lookup entries and bucket starts are all zero, is
scan-ready. -/
theorem scanReady_of_fresh {G : Type} (s : FluidParticleSystem G)
    (hN : s.particleCount < 4294967296)
    (hL : s.spacialLookup = List.replicate s.particleCount ⟨0, 0⟩)
    (hE : s.spacialLookupEntry = List.replicate s.particleCount 0) : s.ScanReady := by
  refine ⟨⟨by rw [hL, List.length_replicate], by rw [hE, List.length_replicate], hN⟩, ?_, ?_, ?_⟩
  · rw [hL, List.pairwise_replicate]
    exact Or.inr (Nat.le_refl _)
  · intro m hm
    have hlen : s.spacialLookup.length = s.particleCount := by rw [hL, List.length_replicate]
    have hpos : 0 < s.particleCount := by omega
    have hentry : s.spacialLookup[m] = ⟨0, 0⟩ := by
      simp only [hL, List.getElem_replicate]
    rw [hentry]
    obtain ⟨n, hn⟩ : ∃ n, s.particleCount = n + 1 := ⟨s.particleCount - 1, by omega⟩
    rw [hE, hL, hn]
    simp [firstIndexOfKey, List.replicate_succ, List.findIdx_cons]
  · intro v hv
    rw [hE, List.mem_replicate] at hv
    omega

/-- A rebuild makes any sized system with in-range bucket starts scan-ready, and keeps the
particle count. -/
theorem updateSpatialLookup_scanReady (t : FluidParticleSystem F) (hsz : t.LookupSized)
    (hrange : ∀ v ∈ t.spacialLookupEntry, v < t.particleCount) :
    (updateSpatialLookup t).ScanReady ∧
      (updateSpatialLookup t).particleCount = t.particleCount := by
  have hsz2 := hsz
  obtain ⟨hL, hE, hN⟩ := hsz
  have hlen := sortedLookup_length t
  have hk : ∀ e ∈ sortedLookup t, e.spatialHashKey < 4294967295 := by
    intro e he
    have := sortedLookup_key_lt t e he
    omega
  rw [updateSpatialLookup_eq t hL]
  refine ⟨⟨⟨hlen, ?_, hN⟩, sortedLookup_sorted t, ?_, ?_⟩, rfl⟩
  · exact (bucketLoop_length _ _ _).trans hE
  · intro m hm
    exact bucketStart_after_rebuild t hsz2 m hm
  · intro v hv
    obtain ⟨k, hkl, hkv⟩ := List.getElem_of_mem hv
    have hspec := bucketLoop_getElem? (sortedLookup t) (sortedLookup_sorted t) hk
      t.spacialLookupEntry t.particleCount (le_of_eq hlen.symm) k
    have hkl2 : k < (forLoop t.particleCount (bucketStep (sortedLookup t))
        t.spacialLookupEntry).length := hkl
    have hkv2 : (forLoop t.particleCount (bucketStep (sortedLookup t))
        t.spacialLookupEntry)[k] = v := hkv
    rw [List.getElem?_eq_getElem hkl2, hkv2] at hspec
    split_ifs at hspec with hc
    · have hv2 : v = firstIndexOfKey (sortedLookup t) k := Option.some.inj hspec
      rw [hv2]
      exact hc.1
    · exact hrange v (List.getElem?_mem hspec.symm)

theorem rebuildWith_scanReady (s : FluidParticleSystem F) (frame : F × List (Vec2 F))
    (h : s.ScanReady) :
    (rebuildWith s frame).ScanReady ∧
      (rebuildWith s frame).particleCount = s.particleCount := by
  obtain ⟨hsz, _, _, hrange⟩ := h
  exact updateSpatialLookup_scanReady
    { s with smoothRadius := frame.1, nextPositionData := frame.2 } hsz hrange

theorem rebuildSeq_scanReady (frames : List (F × List (Vec2 F))) :
    ∀ s : FluidParticleSystem F, s.ScanReady →
      (rebuildSeq frames s).ScanReady ∧
        (rebuildSeq frames s).particleCount = s.particleCount := by
  induction frames with
  | nil => intro s h; exact ⟨h, rfl⟩
  | cons frame frames ih =>
    intro s h
    obtain ⟨h1, h2⟩ := rebuildWith_scanReady s frame h
    obtain ⟨h3, h4⟩ := ih (rebuildWith s frame) h1
    unfold rebuildSeq at h3 h4 ⊢
    rw [List.foldl_cons]
    exact ⟨h3, h4.trans h2⟩

/-- In a scan-ready state, the forward scan from the recorded start of key `k` hands to the
callback the particles of exactly the positions with key `k`, in order, the query particle
left out; and the recorded start of `k` is below the particle count. -/
theorem scan_of_scanReady {G : Type} (s : FluidParticleSystem G) (h : s.ScanReady)
    (k i : Nat) (hk : k < s.particleCount) :
    s.bucketStartAt k < s.particleCount ∧
      scanBucket s k i (s.particleCount - s.bucketStartAt k) (s.bucketStartAt k) =
        ((s.keyRun k).map s.lookupIndexAt).filter (fun x => decide (x ≠ i)) := by
  refine ⟨?_, ?_⟩
  · obtain ⟨⟨_, hE, _⟩, _, _, hrange⟩ := h
    have hkl : k < s.spacialLookupEntry.length := by omega
    apply hrange
    unfold bucketStartAt
    rw [List.getD_eq_getElem _ _ hkl]
    exact List.getElem_mem hkl
  · rw [scanBucket_eq_takeWhile, takeWhile_from_bucketStart s h k]

end FluidParticleSystem

/-- Claim C12: start from a system whose lookup entries and bucket starts are all zero and
rebuild the index any number of times, each time for any radius and any predicted positions
(the keys lie in `[0, particleCount)`).  Then for every key `k < particleCount` and every
query particle `i`: the recorded start `spacialLookupEntry[k]` is below `particleCount`;
if `k` is occupied the recorded start is the first position of `k` in the lookup list; the
forward scan of `foreachNeighbor` from the recorded start passes exactly the positions
whose key is `k`, each once and in order (handing their particles, except `i`, to the
callback); and if `k` is unoccupied the scan hands nothing to the callback. -/
theorem bucket_scan_enumerates_key_run {F : Type} [LinearOrderedField F] [FloorRing F]
    (frames : List (F × List (Vec2 F))) (s : FluidParticleSystem F)
    (hN : s.particleCount < 4294967296)
    (hL : s.spacialLookup = List.replicate s.particleCount ⟨0, 0⟩)
    (hE : s.spacialLookupEntry = List.replicate s.particleCount 0)
    (k i : Nat) (hk : k < s.particleCount) :
    (FluidParticleSystem.rebuildSeq frames s).particleCount = s.particleCount ∧
    (FluidParticleSystem.rebuildSeq frames s).bucketStartAt k < s.particleCount ∧
    ((∃ m, m < s.particleCount ∧ (FluidParticleSystem.rebuildSeq frames s).lookupKeyAt m = k) →
      (FluidParticleSystem.rebuildSeq frames s).bucketStartAt k =
        firstIndexOfKey (FluidParticleSystem.rebuildSeq frames s).spacialLookup k) ∧
    FluidParticleSystem.scanBucket (FluidParticleSystem.rebuildSeq frames s) k i
        ((FluidParticleSystem.rebuildSeq frames s).particleCount -
          (FluidParticleSystem.rebuildSeq frames s).bucketStartAt k)
        ((FluidParticleSystem.rebuildSeq frames s).bucketStartAt k) =
      (((FluidParticleSystem.rebuildSeq frames s).keyRun k).map
        (FluidParticleSystem.rebuildSeq frames s).lookupIndexAt).filter
          (fun x => decide (x ≠ i)) ∧
    ((FluidParticleSystem.rebuildSeq frames s).keyRun k).Nodup ∧
    (∀ m, m ∈ (FluidParticleSystem.rebuildSeq frames s).keyRun k ↔
      m < s.particleCount ∧ (FluidParticleSystem.rebuildSeq frames s).lookupKeyAt m = k) ∧
    ((¬ ∃ m, m < s.particleCount ∧ (FluidParticleSystem.rebuildSeq frames s).lookupKeyAt m = k) →
      FluidParticleSystem.scanBucket (FluidParticleSystem.rebuildSeq frames s) k i
        ((FluidParticleSystem.rebuildSeq frames s).particleCount -
          (FluidParticleSystem.rebuildSeq frames s).bucketStartAt k)
        ((FluidParticleSystem.rebuildSeq frames s).bucketStartAt k) = []) := by
  obtain ⟨hready, hcount⟩ := FluidParticleSystem.rebuildSeq_scanReady frames s
    (FluidParticleSystem.scanReady_of_fresh s hN hL hE)
  obtain ⟨hstart, hscan⟩ := FluidParticleSystem.scan_of_scanReady _ hready k i
    (by rw [hcount]; exact hk)
  have hmem : ∀ m, m ∈ (FluidParticleSystem.rebuildSeq frames s).keyRun k ↔
      m < s.particleCount ∧ (FluidParticleSystem.rebuildSeq frames s).lookupKeyAt m = k := by
    intro m
    unfold FluidParticleSystem.keyRun
    rw [List.mem_filter, List.mem_range, hcount, decide_eq_true_iff]
  refine ⟨hcount, by rw [← hcount]; exact hstart, ?_, hscan, ?_, hmem, ?_⟩
  · rintro ⟨m, hm, hkm⟩
    exact (FluidParticleSystem.bucketStartAt_of_occupied _ hready k m
      (by rw [hcount]; exact hm) hkm).1
  · unfold FluidParticleSystem.keyRun
    exact (List.nodup_range _).filter _
  · intro hno
    have hnil : (FluidParticleSystem.rebuildSeq frames s).keyRun k = [] := by
      rw [List.eq_nil_iff_forall_not_mem]
      intro m hm
      exact hno ⟨m, (hmem m).1 hm⟩
    rw [hscan, hnil]
    rfl

/-- The C12 statement at `pairSystem` and `sampleFrames`, for key `0` and query
particle `0`. -/
theorem bucket_scan_enumerates_key_run_witness :
    pairSystem.particleCount < 4294967296 ∧
    pairSystem.spacialLookup = List.replicate pairSystem.particleCount ⟨0, 0⟩ ∧
    pairSystem.spacialLookupEntry = List.replicate pairSystem.particleCount 0 ∧
    0 < pairSystem.particleCount ∧
    (FluidParticleSystem.rebuildSeq sampleFrames pairSystem).bucketStartAt 0 <
      pairSystem.particleCount ∧
    FluidParticleSystem.scanBucket (FluidParticleSystem.rebuildSeq sampleFrames pairSystem) 0 0
        ((FluidParticleSystem.rebuildSeq sampleFrames pairSystem).particleCount -
          (FluidParticleSystem.rebuildSeq sampleFrames pairSystem).bucketStartAt 0)
        ((FluidParticleSystem.rebuildSeq sampleFrames pairSystem).bucketStartAt 0) =
      (((FluidParticleSystem.rebuildSeq sampleFrames pairSystem).keyRun 0).map
        (FluidParticleSystem.rebuildSeq sampleFrames pairSystem).lookupIndexAt).filter
          (fun x => decide (x ≠ 0)) :=
  have h1 : pairSystem.particleCount < 4294967296 := by decide
  have h2 : 0 < pairSystem.particleCount := by decide
  have h := bucket_scan_enumerates_key_run sampleFrames pairSystem h1 rfl rfl 0 0 h2
  ⟨h1, rfl, rfl, h2, h.2.1, h.2.2.2.1⟩

/-! ## Kernels: compact support and continuity at the support radius -/

/-- A cut-off function `if distance ≥ radius then 0 else body distance` satisfies the kernel
contract as soon as `body` is continuous and vanishes at the radius. -/
theorem kernelContract_of_cutoff (k : ℝ → ℝ → ℝ) (body : ℝ → ℝ → ℝ)
    (hk : ∀ d r, k d r = if d ≥ r then 0 else body r d)
    (hcont : ∀ r, Continuous (body r)) (hzero : ∀ r, body r r = 0) : KernelContract k := by
  have hz : ∀ d r, d ≥ r → k d r = 0 := by
    intro d r h
    rw [hk, if_pos h]
  have hc : ∀ r, Continuous (fun d => k d r) := by
    intro r
    have h1 : (fun d => k d r) = fun d => if r ≤ d then (0 : ℝ) else body r d := by
      funext d
      rw [hk]
    rw [h1]
    refine Continuous.if_le continuous_const (hcont r) continuous_const continuous_id ?_
    intro x hx
    simp only [id] at hx
    rw [← hx, hzero]
  refine ⟨hz, fun r => (hc r).continuousAt, fun r => ?_⟩
  have h2 : Filter.Tendsto (fun d => k d r) (nhds r) (nhds (k r r)) := (hc r).continuousAt
  rw [hz r r le_rfl] at h2
  exact tendsto_nhdsWithin_of_tendsto_nhds h2

/-- Claim C3: over the reals and for every value of the scaling factors, each of
`kernelPoly6_2D`, `kernelSpikyPow3_2D`, `derivativeSpikyPow3_2D`, `kernelSpikyPow2_2D` and
`derivativeSpikyPow2_2D` returns exactly `0` when `distance ≥ radius`, is continuous at
`distance = radius`, and tends to `0` as `distance` approaches `radius` from below. -/
theorem kernels_vanish_and_continuous_at_radius (s : FluidParticleSystem ℝ) :
    KernelContract (FluidParticleSystem.kernelPoly6_2D s) ∧
    KernelContract (FluidParticleSystem.kernelSpikyPow3_2D s) ∧
    KernelContract (FluidParticleSystem.derivativeSpikyPow3_2D s) ∧
    KernelContract (FluidParticleSystem.kernelSpikyPow2_2D s) ∧
    KernelContract (FluidParticleSystem.derivativeSpikyPow2_2D s) := by
  refine ⟨?_, ?_, ?_, ?_, ?_⟩
  · refine kernelContract_of_cutoff _
      (fun r d => s.scalingFactorPoly6_2D * (r * r - d * d) * (r * r - d * d) * (r * r - d * d))
      (fun d r => rfl) (fun r => by continuity) (fun r => by ring)
  · refine kernelContract_of_cutoff _
      (fun r d => s.scalingFactorSpikyPow3_2D * (r - d) * (r - d) * (r - d))
      (fun d r => rfl) (fun r => by continuity) (fun r => by ring)
  · refine kernelContract_of_cutoff _
      (fun r d => (-3) * s.scalingFactorSpikyPow3_2D * (r - d) * (r - d))
      (fun d r => rfl) (fun r => by continuity) (fun r => by ring)
  · refine kernelContract_of_cutoff _
      (fun r d => s.scalingFactorSpikyPow2_2D * (r - d) * (r - d))
      (fun d r => rfl) (fun r => by continuity) (fun r => by ring)
  · refine kernelContract_of_cutoff _
      (fun r d => (-2) * s.scalingFactorSpikyPow2_2D * (r - d))
      (fun d r => rfl) (fun r => by continuity) (fun r => by ring)

end lve
